import Mathlib

/-!
Shallow embedding of the howamidoing grade-aggregation core
(src/src/howamidoing/objects.py and src/src/howamidoing/utils.py).

Modelling conventions:
* Python floats are modelled as rationals (ℚ); float arithmetic is treated as
  exact.  The only float operation with an irrational result is the square
  root inside the variance combiner (Python's value ** 0.5); it is abstracted
  as an explicit function argument so that every definition stays computable.
  None of the verified claims depends on the value of the square root.
* Python exceptions are modelled with the Except monad over the PyErr type
  below.  Operations that mutate state before raising are modelled as
  returning the pair of the mutated state and an optional error where a claim
  depends on the partially-mutated state (Course.apply_clobber).
* Python dictionaries (insertion ordered) are modelled as association lists;
  dict_set replaces in place, preserving order, and appends fresh keys.
* Identifiers (the ID class, a str subclass) are modelled as String; the
  nondeterministic generate_id is replaced by an explicit id argument, in the
  same way the source's override_id parameter supplies an id.
-/

deriving instance DecidableEq for Except

namespace Howamidoing

/-- Python exception kinds raised by the core. -/
inductive PyErr where
  | valueError (msg : String)
  | typeError
  | zeroDivisionError
  | assertionError (msg : String)
  | keyError
  | attributeError
deriving DecidableEq, Repr

/-- Python truthiness of an optional float: None and 0 are falsy. -/
def py_truthy : Option ℚ → Bool
  | none => false
  | some x => x ≠ 0

/-- Python float division; raises ZeroDivisionError on a zero denominator. -/
def py_div (a b : ℚ) : Except PyErr ℚ :=
  if b = 0 then .error .zeroDivisionError else .ok (a / b)

/-- Python round(x, 2).  Mathlib's round is half-away-from-zero at ties while
Python uses banker's rounding; no claim exercises an exact .005 tie. -/
def py_round2 (x : ℚ) : ℚ := (round (x * 100) : ℤ) / 100

/-- Summary.percentage: round(fraction * 100, 2).  The source converts the
result to a string and appends a percent sign; the string rendering carries no
further information so the rounded number stands for it. -/
def py_percentage (fraction : ℚ) : ℚ := py_round2 (fraction * 100)

/-- utils.Summary: the fixed-shape result record.  Fields mirror the summary
dictionary keys; percentage_f is the source's "_percentage", mu_f is "_mu",
sigma_f is "_sigma" and the undecorated fields are their display renderings. -/
structure Summary where
  percentage_f : ℚ
  percentage : ℚ
  zscore : Option ℚ
  mu_f : Option ℚ
  mu : Option ℚ
  sigma_f : Option ℚ
  sigma : Option ℚ
  drop_applied : Option Bool
  is_final : Option Bool
  class_curved : Option Bool
  grade : Option String
  error_message : Option String
deriving DecidableEq, Repr

/-- utils.Summary.__init__.  Each curved slot is filled only when the
corresponding argument is truthy (Python's `x if x else None`), so a zero
value is coerced to an absent field.  score / upper raises ZeroDivisionError
when upper is 0. -/
def Summary.make (score upper : ℚ) (zscore : Option ℚ := none)
    (mu : Option ℚ := none) (sigma : Option ℚ := none) : Except PyErr Summary :=
  if upper = 0 then .error .zeroDivisionError
  else
    let pf := score / upper
    .ok {
      percentage_f := pf
      percentage := py_percentage pf
      zscore := if py_truthy zscore then some (py_round2 (zscore.getD 0)) else none
      mu_f := if py_truthy mu then some (mu.getD 0 / upper) else none
      mu := if py_truthy mu then some (py_percentage (mu.getD 0 / upper)) else none
      sigma_f := if py_truthy sigma then some (sigma.getD 0 / upper) else none
      sigma := if py_truthy sigma then some (py_percentage (sigma.getD 0 / upper)) else none
      drop_applied := none
      is_final := none
      class_curved := none
      grade := none
      error_message := none }

/-- utils.correlated_sigma_sum, with the square root (float ** 0.5) passed in
as sqrt.  Combines two correlated standard deviations. -/
def correlated_sigma_sum (sqrt : ℚ → ℚ) (sigma1 sigma2 corr : ℚ) : ℚ :=
  sqrt (sigma1 ^ 2 + sigma2 ^ 2 + 2 * corr * sigma1 * sigma2)

/-- objects.Assignment: the atomic scored entity.  curved is a Bool; the
source's default of None behaves as False under every truthiness test.
before_clobber holds the (score, zscore) snapshot taken by apply_clobber. -/
structure Assignment where
  id : String
  name : Option String
  upper : ℚ
  curved : Bool
  mu : Option ℚ
  sigma : Option ℚ
  clobbered : Bool
  before_clobber : Option (ℚ × ℚ)
  score : ℚ
  zscore : ℚ
  weight : Option ℚ
deriving DecidableEq, Repr

/-- objects.Assignment.__init__ (the non-override path).  Validates that a
curved assignment provides mu and sigma, coerces falsy mu/sigma to None, and
computes the z-score: (score - mu) / sigma for curved assignments (a None
operand raises TypeError), 0 for uncurved ones. -/
def Assignment.make (score : ℚ) (name : Option String := none) (upper : ℚ := 100)
    (mu : Option ℚ := none) (sigma : Option ℚ := none) (curved : Bool := false)
    (id : String := "id") : Except PyErr Assignment :=
  if curved ∧ (mu = none ∨ sigma = none) then
    .error (.valueError "Curved assignment must have mean and standard deviation.")
  else
    let muS := if py_truthy mu then mu else none
    let sigmaS := if py_truthy sigma then sigma else none
    if curved then
      match muS, sigmaS with
      | some m, some s => do
          let z ← py_div (score - m) s
          .ok { id := id, name := name, upper := upper, curved := curved,
                mu := muS, sigma := sigmaS, clobbered := false,
                before_clobber := none, score := score, zscore := z,
                weight := none }
      | _, _ => .error .typeError
    else
      .ok { id := id, name := name, upper := upper, curved := curved,
            mu := muS, sigma := sigmaS, clobbered := false,
            before_clobber := none, score := score, zscore := 0,
            weight := none }

/-- objects.Assignment.get_primary_score: zscore if curved else score. -/
def Assignment.get_primary_score (a : Assignment) : ℚ :=
  if a.curved then a.zscore else a.score

/-- objects.Assignment.get_summary. -/
def Assignment.get_summary (a : Assignment) : Except PyErr Summary :=
  Summary.make a.score a.upper (some a.zscore) a.mu a.sigma

/-- objects.Assignment.revert_clobber: no-op when not clobbered, otherwise
restore score and zscore from the snapshot and clear it.  A clobbered
assignment without a snapshot (unreachable through the API) would index None
in the source, a TypeError. -/
def Assignment.revert_clobber (a : Assignment) : Except PyErr Assignment :=
  if a.clobbered then
    match a.before_clobber with
    | some (s, z) =>
        .ok { a with clobbered := false, score := s, zscore := z,
                     before_clobber := none }
    | none => .error .typeError
  else .ok a

/-- objects.Assignment.apply_clobber: revert first when already clobbered,
snapshot the current (score, zscore), install the new zscore and recompute
score = zscore * sigma + mu (a None mu or sigma raises TypeError). -/
def Assignment.apply_clobber (zscore : ℚ) (a : Assignment) : Except PyErr Assignment := do
  let a ← if a.clobbered then a.revert_clobber else .ok a
  match a.sigma, a.mu with
  | some s, some m =>
      .ok { a with clobbered := true,
                   before_clobber := some (a.score, a.zscore),
                   zscore := zscore,
                   score := zscore * s + m }
  | _, _ => .error .typeError

/-- Lookup in an insertion-ordered dictionary (association list). -/
def dict_get {α : Type} : List (String × α) → String → Option α
  | [], _ => none
  | (k, v) :: rest, key => if k = key then some v else dict_get rest key

/-- Python dict assignment: replace in place when the key exists (preserving
insertion order), append otherwise. -/
def dict_set {α : Type} : List (String × α) → String → α → List (String × α)
  | [], key, v => [(key, v)]
  | (k, w) :: rest, key, v =>
      if k = key then (k, v) :: rest else (k, w) :: dict_set rest key v

/-- Python del d[key] restricted to its effect on the entries (the KeyError on
a missing key is raised by the callers modelled below). -/
def dict_del {α : Type} (d : List (String × α)) (key : String) : List (String × α) :=
  d.filter (fun p => p.1 ≠ key)

/-- Python list slicing l[k:], including the negative-start clamping. -/
def py_slice_from {α : Type} (l : List α) (k : Int) : List α :=
  if 0 ≤ k then l.drop k.toNat else l.drop ((l.length : Int) + k).toNat

/-- objects.AssignmentGroup (with the curved discriminant of its two concrete
subclasses, CurvedAssignmentGroup and UncurvedAssignmentGroup).  assignments
is the insertion-ordered id-to-Assignment dictionary. -/
structure AssignmentGroup where
  id : String
  weight : ℚ
  name : Option String
  corr : Option ℚ
  curved : Bool
  num_drops : Int
  assignments : List (String × Assignment)
deriving DecidableEq, Repr

/-- objects.CurvedAssignmentGroup.__init__ (weight validated by the base
AssignmentGroup constructor, then curved set to True). -/
def AssignmentGroup.make_curved (weight : ℚ) (name : Option String := none)
    (corr : Option ℚ := some (6/10)) (num_drops : Int := 0)
    (id : String := "gid") : Except PyErr AssignmentGroup :=
  if weight > 1 ∨ weight ≤ 0 then .error (.valueError s!"Invalid weight: {weight}.")
  else .ok { id := id, weight := weight, name := name, corr := corr,
             curved := true, num_drops := num_drops, assignments := [] }

/-- objects.UncurvedAssignmentGroup.__init__ (corr defaults to None). -/
def AssignmentGroup.make_uncurved (weight : ℚ) (name : Option String := none)
    (corr : Option ℚ := none) (num_drops : Int := 0)
    (id : String := "gid") : Except PyErr AssignmentGroup :=
  if weight > 1 ∨ weight ≤ 0 then .error (.valueError s!"Invalid weight: {weight}.")
  else .ok { id := id, weight := weight, name := name, corr := corr,
             curved := false, num_drops := num_drops, assignments := [] }

/-- objects.CurvedAssignmentGroup.add_assignment: default name
"Assignment n+1", construct a curved Assignment, store under its id. -/
def AssignmentGroup.add_assignment_curved (g : AssignmentGroup) (score : ℚ)
    (name : Option String := none) (upper : ℚ := 100) (mu : Option ℚ := none)
    (sigma : Option ℚ := none) (id : String := "aid") :
    Except PyErr AssignmentGroup := do
  let name := match name with
    | none => some ("Assignment " ++ toString (g.assignments.length + 1))
    | some n => some n
  let a ← Assignment.make score name upper mu sigma true id
  .ok { g with assignments := dict_set g.assignments a.id a }

/-- objects.UncurvedAssignmentGroup.add_assignment. -/
def AssignmentGroup.add_assignment_uncurved (g : AssignmentGroup) (score : ℚ)
    (name : Option String := none) (upper : ℚ := 100) (id : String := "aid") :
    Except PyErr AssignmentGroup := do
  let name := match name with
    | none => some ("Assignment " ++ toString (g.assignments.length + 1))
    | some n => some n
  let a ← Assignment.make score name upper none none false id
  .ok { g with assignments := dict_set g.assignments a.id a }

/-- objects.AssignmentGroup.remove_assignment: no-op when absent. -/
def AssignmentGroup.remove_assignment (g : AssignmentGroup) (aid : String) :
    AssignmentGroup :=
  if (dict_get g.assignments aid).isSome then
    { g with assignments := dict_del g.assignments aid }
  else g

/-- objects.AssignmentGroup._apply_drop: stable-sort the assignments by
primary score ascending (Python's list.sort is stable, as is mergeSort) and,
when there are more assignments than num_drops, drop the lowest num_drops. -/
def AssignmentGroup.apply_drop (g : AssignmentGroup) : List Assignment × Bool :=
  let assignments := (g.assignments.map Prod.snd).mergeSort
    (fun a b => a.get_primary_score ≤ b.get_primary_score)
  if (assignments.length : Int) > g.num_drops then
    (py_slice_from assignments g.num_drops, true)
  else (assignments, false)

/-- The accumulation loop of CurvedAssignmentGroup._calculate_summaries:
running sums of the fractional scores and mus and the running
correlated-sigma combination.  A missing _mu or _sigma in an assignment
summary is Python's float + None, a TypeError, as is a None corr reaching
correlated_sigma_sum. -/
def curved_group_fold (sqrt : ℚ → ℚ) (corr : Option ℚ) :
    List Assignment → ℚ × ℚ × ℚ → Except PyErr (ℚ × ℚ × ℚ)
  | [], acc => .ok acc
  | a :: rest, (fs, fm, fsig) => do
      let s ← a.get_summary
      let m ← match s.mu_f with
        | some m => Except.ok m
        | none => Except.error PyErr.typeError
      let sg ← match s.sigma_f with
        | some x => Except.ok x
        | none => Except.error PyErr.typeError
      let c ← match corr with
        | some c => Except.ok c
        | none => Except.error PyErr.typeError
      curved_group_fold sqrt corr rest
        (fs + s.percentage_f, fm + m, correlated_sigma_sum sqrt fsig sg c)

/-- objects.CurvedAssignmentGroup._calculate_summaries: fold the retained
assignments, then zscore = (score - mu) / sigma and build the summary with
upper 1.0. -/
def CurvedAssignmentGroup.calculate_summaries (sqrt : ℚ → ℚ)
    (g : AssignmentGroup) (assignments : List Assignment) :
    Except PyErr Summary := do
  let (fs, fm, fsig) ← curved_group_fold sqrt g.corr assignments (0, 0, 0)
  let z ← py_div (fs - fm) fsig
  Summary.make fs 1 (some z) (some fm) (some fsig)

/-- The accumulation loop of UncurvedAssignmentGroup._calculate_summaries. -/
def uncurved_group_fold : List Assignment → ℚ → Except PyErr ℚ
  | [], acc => .ok acc
  | a :: rest, acc => do
      let s ← a.get_summary
      uncurved_group_fold rest (acc + s.percentage_f)

/-- objects.UncurvedAssignmentGroup._calculate_summaries. -/
def UncurvedAssignmentGroup.calculate_summaries (assignments : List Assignment) :
    Except PyErr Summary := do
  let fs ← uncurved_group_fold assignments 0
  Summary.make fs 1

/-- objects.AssignmentGroup.get_summary: error on an empty group, apply the
drop policy, aggregate per the concrete variant, record drop_applied. -/
def AssignmentGroup.get_summary (sqrt : ℚ → ℚ) (g : AssignmentGroup) :
    Except PyErr Summary := do
  if g.assignments.length = 0 then
    .error (.assertionError "No assignments in this group.")
  else do
    let (retained, dropped) := g.apply_drop
    let s ← if g.curved then CurvedAssignmentGroup.calculate_summaries sqrt g retained
            else UncurvedAssignmentGroup.calculate_summaries retained
    .ok { s with drop_applied := some dropped }

/-- A Course component object: a single Assignment or an AssignmentGroup. -/
inductive CompObj where
  | single (a : Assignment)
  | group (g : AssignmentGroup)
deriving DecidableEq, Repr

/-- The component metadata dict a Course keeps per component. -/
structure ComponentInfo where
  curved : Bool
  weight : ℚ
  grouped : Bool
  obj : CompObj
deriving DecidableEq, Repr

/-- The clobber_info record: the source id and the ids actually clobbered,
in the order they were clobbered. -/
structure ClobberInfo where
  source : String
  targets : List String
deriving DecidableEq, Repr

/-- objects.Course. -/
structure Course where
  id : String
  corr : ℚ
  name : String
  status : String
  components : List (String × ComponentInfo)
  clobber_info : Option ClobberInfo
  uncurved_boundaries : List (String × ℚ)
  curved_boundaries : List (String × ℚ)
deriving DecidableEq, Repr

/-- The fixed uncurved letter-grade boundary table of Course.__init__. -/
def default_uncurved_boundaries : List (String × ℚ) :=
  [("A+", 97/100), ("A", 93/100), ("A-", 9/10), ("B+", 87/100), ("B", 83/100),
   ("B-", 8/10), ("C+", 77/100), ("C", 73/100), ("C-", 7/10), ("D+", 67/100),
   ("D", 63/100), ("D-", 6/10), ("F", 0)]

/-- The fixed curved letter-grade boundary table of Course.__init__
(cumulative probabilities). -/
def default_curved_boundaries : List (String × ℚ) :=
  [("A+", 95/100), ("A", 77/100), ("A-", 65/100), ("B+", 45/100), ("B", 3/10),
   ("B-", 2/10), ("C+", 15/100), ("C", 1/10), ("C-", 7/100), ("D+", 5/100),
   ("D", 4/100), ("D-", 3/100), ("F", 0)]

/-- objects.Course.__init__ (non-override path): validates corr in [0, 1];
a falsy (empty) name defaults to "My Course". -/
def Course.make (corr : ℚ := 6/10) (name : Option String := none)
    (id : String := "cid") : Except PyErr Course :=
  if corr < 0 ∨ corr > 1 then
    .error (.valueError s!"Invalid correlation coefficient: {corr}.")
  else
    .ok { id := id, corr := corr,
          name := match name with
            | none => "My Course"
            | some n => if n = "" then "My Course" else n
          status := "Other", components := [], clobber_info := none,
          uncurved_boundaries := default_uncurved_boundaries,
          curved_boundaries := default_curved_boundaries }

/-- get_summary dispatched over a component object. -/
def CompObj.get_summary (sqrt : ℚ → ℚ) : CompObj → Except PyErr Summary
  | .single a => a.get_summary
  | .group g => g.get_summary sqrt

/-- get_weight dispatched over a component object (a plain Assignment's
weight may be None). -/
def CompObj.get_weight : CompObj → Option ℚ
  | .single a => a.weight
  | .group g => some g.weight

/-- get_zscore dispatched over a component object; AssignmentGroup has no
get_zscore method, so calling it on a group is an AttributeError. -/
def CompObj.get_zscore : CompObj → Except PyErr ℚ
  | .single a => .ok a.zscore
  | .group _ => .error .attributeError

/-- A None operand in float arithmetic is a TypeError. -/
def opt_val (x : Option ℚ) : Except PyErr ℚ :=
  match x with
  | some v => .ok v
  | none => .error .typeError

/-- The result record of Course._calculate_curved_info. -/
structure CurvedInfo where
  score : ℚ
  mu : ℚ
  sigma : ℚ
  zscore : ℚ
  curved : Bool
deriving DecidableEq, Repr

/-- The accumulation loop of Course._calculate_curved_info: weighted sums of
component scores and mus and the running correlated-sigma combination of the
weighted sigmas. -/
def curved_course_fold (sqrt : ℚ → ℚ) (corr : ℚ) :
    List CompObj → ℚ × ℚ × ℚ → Except PyErr (ℚ × ℚ × ℚ)
  | [], acc => .ok acc
  | comp :: rest, (fs, fm, fsig) => do
      let s ← comp.get_summary sqrt
      let w ← opt_val comp.get_weight
      let m ← opt_val s.mu_f
      let sg ← opt_val s.sigma_f
      curved_course_fold sqrt corr rest
        (fs + s.percentage_f * w, fm + m * w,
         correlated_sigma_sum sqrt fsig (sg * w) corr)

/-- objects.Course._calculate_curved_info. -/
def Course.calculate_curved_info (sqrt : ℚ → ℚ) (c : Course)
    (assignments : List CompObj) : Except PyErr CurvedInfo :=
  if assignments.length = 0 then .ok ⟨0, 0, 0, 0, false⟩
  else do
    let (fs, fm, fsig) ← curved_course_fold sqrt c.corr assignments (0, 0, 0)
    let z ← py_div (fs - fm) fsig
    .ok ⟨fs, fm, fsig, z, true⟩

/-- The accumulation loop of Course._calculate_uncurved_info. -/
def uncurved_course_fold (sqrt : ℚ → ℚ) :
    List CompObj → ℚ → Except PyErr ℚ
  | [], acc => .ok acc
  | comp :: rest, acc => do
      let s ← comp.get_summary sqrt
      let w ← opt_val comp.get_weight
      uncurved_course_fold sqrt rest (acc + s.percentage_f * w)

/-- objects.Course._calculate_summary: combine curved and uncurved weighted
totals, divide by the total weight, and build the course-level Summary
(curved slots only when a curved component exists). -/
def Course.calculate_summary (sqrt : ℚ → ℚ) (c : Course)
    (curved uncurved : List CompObj) (total_weight : ℚ) :
    Except PyErr Summary := do
  let ci ← Course.calculate_curved_info sqrt c curved
  let ui ← uncurved_course_fold sqrt uncurved 0
  let final_score ← py_div (ci.score + ui) total_weight
  let final_mu ← py_div (ci.mu + ui) total_weight
  let final_sigma ← py_div ci.sigma total_weight
  if ci.curved then
    Summary.make final_score 1 (some ci.zscore) (some final_mu) (some final_sigma)
  else
    Summary.make final_score 1

/-- The letter scan of Course._get_grade: first letter whose threshold the
score meets, the last letter as the fall-through.  The source would leave the
loop variable unbound on an empty table; the tables are never empty. -/
def grade_scan : List (String × ℚ) → ℚ → String
  | [], _ => ""
  | [(k, _)], _ => k
  | (k, v) :: rest, p => if p ≥ v then k else grade_scan rest p

/-- objects.Course._get_grade.  The truncated-normal inverse CDF
(scipy truncnorm ppf, a transcendental function of mu, sigma and the
cumulative probability) is abstracted as the argument ppf; the two divisions
that the source performs to build the distribution's bounds are kept for
their ZeroDivisionError behaviour. -/
def Course.get_grade (ppf : ℚ → ℚ → ℚ → ℚ) (c : Course) (summary : Summary) :
    Except PyErr String :=
  if summary.class_curved.getD false then
    match summary.mu_f, summary.sigma_f with
    | some m, some sg => do
        let _a ← py_div (0 - m) sg
        let _b ← py_div (1 - m) sg
        let tb := c.curved_boundaries.map (fun p => (p.1, ppf m sg p.2))
        .ok (grade_scan tb summary.percentage_f)
    | _, _ => .error .typeError
  else .ok (grade_scan c.uncurved_boundaries summary.percentage_f)

/-- Python math.isclose with the default relative tolerance 1e-9 and
absolute tolerance 0. -/
def py_isclose (a b : ℚ) : Bool :=
  |a - b| ≤ max ((1/1000000000) * max |a| |b|) 0

/-- The classification loop of Course.get_summary: split components into
curved and uncurved in insertion order while accumulating the total weight,
raising as soon as the running total exceeds 1.0. -/
def classify_components : List (String × ComponentInfo) → ℚ → List CompObj →
    List CompObj → Except PyErr (ℚ × List CompObj × List CompObj)
  | [], total, cs, us => .ok (total, cs, us)
  | (_, info) :: rest, total, cs, us =>
      let cs' := if info.curved then cs ++ [info.obj] else cs
      let us' := if info.curved then us else us ++ [info.obj]
      let total' := total + info.weight
      if total' > 1 then .error (.valueError "Total weight exceeds one.")
      else classify_components rest total' cs' us'

/-- objects.Course.get_summary. -/
def Course.get_summary (sqrt : ℚ → ℚ) (ppf : ℚ → ℚ → ℚ → ℚ) (c : Course) :
    Except PyErr Summary := do
  if c.components.length = 0 then
    .error (.assertionError "No components in this course. Click on the bottons to the right to enter and add new components.")
  else do
    let (total_weight, curved, uncurved) ← classify_components c.components 0 [] []
    let is_final := py_isclose total_weight 1
    let s ← Course.calculate_summary sqrt c curved uncurved total_weight
    let s := { s with class_curved := some (decide (curved.length ≠ 0)),
                      is_final := some is_final }
    let g ← Course.get_grade ppf c s
    .ok { s with grade := some g }

/-- objects.Course.add_curved_single: default name, construct the
CurvedSingleAssignment (weight validated first, then the Assignment
constructor runs with curved=True, then the weight is attached), store the
component metadata under the new id. -/
def Course.add_curved_single (c : Course) (weight score : ℚ)
    (name : Option String := none) (upper : ℚ := 100) (mu : Option ℚ := none)
    (sigma : Option ℚ := none) (id : String := "aid") : Except PyErr Course := do
  let name := match name with
    | none => some ("Assignment " ++ toString (c.components.length + 1))
    | some n => some n
  if weight > 1 ∨ weight ≤ 0 then .error (.valueError s!"Invalid weight: {weight}.")
  else do
    let a ← Assignment.make score name upper mu sigma true id
    let a := { a with weight := some weight }
    let info : ComponentInfo :=
      { curved := true, weight := weight, grouped := false, obj := .single a }
    .ok { c with components := dict_set c.components a.id info }

/-- objects.Course.add_uncurved_single. -/
def Course.add_uncurved_single (c : Course) (weight score : ℚ)
    (name : Option String := none) (upper : ℚ := 100) (id : String := "aid") :
    Except PyErr Course := do
  let name := match name with
    | none => some ("Assignment " ++ toString (c.components.length + 1))
    | some n => some n
  if weight > 1 ∨ weight ≤ 0 then .error (.valueError s!"Invalid weight: {weight}.")
  else do
    let a ← Assignment.make score name upper none none false id
    let a := { a with weight := some weight }
    let info : ComponentInfo :=
      { curved := false, weight := weight, grouped := false, obj := .single a }
    .ok { c with components := dict_set c.components a.id info }

/-- objects.Course.add_curved_group: a None corr is replaced by the Course's
own corr before the group is constructed; the group constructor validates
only the weight. -/
def Course.add_curved_group (c : Course) (weight : ℚ)
    (name : Option String := none) (corr : Option ℚ := none)
    (num_drops : Int := 0) (id : String := "gid") : Except PyErr Course := do
  let corr := match corr with
    | none => c.corr
    | some v => v
  let name := match name with
    | none => some ("Grouped Assignments " ++ toString (c.components.length + 1))
    | some n => some n
  let g ← AssignmentGroup.make_curved weight name (some corr) num_drops id
  let info : ComponentInfo :=
    { curved := true, weight := weight, grouped := true, obj := .group g }
  .ok { c with components := dict_set c.components g.id info }

/-- objects.Course.add_uncurved_group (no corr substitution here). -/
def Course.add_uncurved_group (c : Course) (weight : ℚ)
    (name : Option String := none) (corr : Option ℚ := none)
    (num_drops : Int := 0) (id : String := "gid") : Except PyErr Course := do
  let name := match name with
    | none => some ("Grouped Assignments " ++ toString (c.components.length + 1))
    | some n => some n
  let g ← AssignmentGroup.make_uncurved weight name corr num_drops id
  let info : ComponentInfo :=
    { curved := false, weight := weight, grouped := true, obj := .group g }
  .ok { c with components := dict_set c.components g.id info }

/-- The revert loop of Course.revert_clobber: look each recorded target up
(a removed id would be a KeyError) and revert its assignment. -/
def revert_targets (comps : List (String × ComponentInfo)) :
    List String → Except PyErr (List (String × ComponentInfo))
  | [] => .ok comps
  | t :: ts =>
      match dict_get comps t with
      | none => .error .keyError
      | some info =>
          match info.obj with
          | .single a => do
              let a' ← a.revert_clobber
              revert_targets (dict_set comps t { info with obj := .single a' }) ts
          | .group _ => .error .attributeError

/-- objects.Course.revert_clobber: revert every recorded target and clear
clobber_info (a no-op apart from the clear when none is active). -/
def Course.revert_clobber (c : Course) : Except PyErr Course :=
  match c.clobber_info with
  | none => .ok { c with clobber_info := none }
  | some info => do
      let comps ← revert_targets c.components info.targets
      .ok { c with components := comps, clobber_info := none }

/-- The target-validation loop of Course.apply_clobber; the first failing
index names its error. -/
def targets_check (comps : List (String × ComponentInfo)) :
    List String → Nat → Option PyErr
  | [], _ => none
  | t :: ts, i =>
      match dict_get comps t with
      | none => some (.valueError s!"Target assignment at index {i} not found")
      | some info =>
          if ¬ info.curved then
            some (.valueError s!"Target assignment at index {i} is not curved.")
          else if info.grouped then
            some (.valueError s!"Target assignment at index {i} must be single not grouped.")
          else targets_check comps ts (i + 1)

/-- Python min(enumerate(l), key=snd): the index of the first minimum. -/
def py_argmin : List ℚ → Nat
  | [] => 0
  | [_] => 0
  | x :: y :: rest =>
      let j := py_argmin (y :: rest)
      if (y :: rest).getD j 0 < x then j + 1 else 0

/-- py_argmin stays inside the list. -/
theorem py_argmin_lt (l : List ℚ) (h : l ≠ []) : py_argmin l < l.length := by
  match l with
  | [x] => simp [py_argmin]
  | x :: y :: rest =>
      have ih := py_argmin_lt (y :: rest) (by simp)
      simp only [py_argmin, List.length_cons] at ih ⊢
      split <;> omega

/-- The selection loop of Course.apply_clobber: while capacity is nonzero and
some remaining z-score is below the source's, pop the first minimum and
record it.  The pool pairs each remaining target id with the z-score read
before the loop started. -/
def clobber_select (z_source : ℚ) (capacity : Int)
    (pool : List (String × ℚ)) : List String :=
  if capacity = 0 then []
  else if pool.all (fun p => z_source ≤ p.2) then []
  else
    let i := py_argmin (pool.map Prod.snd)
    let picked := pool.getD i ("", 0)
    picked.1 :: clobber_select z_source (capacity - 1) (pool.eraseIdx i)
termination_by pool.length
decreasing_by
  have hne : pool ≠ [] := by
    intro h
    subst h
    simp_all
  have hlt : py_argmin (pool.map Prod.snd) < pool.length := by
    have := py_argmin_lt (pool.map Prod.snd) (by simpa using hne)
    simpa using this
  have := List.length_eraseIdx_add_one (l := pool) hlt
  omega

/-- The z-score fetch of Course.apply_clobber over the validated targets. -/
def fetch_zscores (comps : List (String × ComponentInfo)) :
    List String → Except PyErr (List ℚ)
  | [] => .ok []
  | t :: ts =>
      match dict_get comps t with
      | none => .error .keyError
      | some info => do
          let z ← info.obj.get_zscore
          let rest ← fetch_zscores comps ts
          .ok (z :: rest)

/-- Apply Assignment.apply_clobber with the source z-score to each selected
target in order. -/
def apply_clobber_targets (z : ℚ) :
    List (String × ComponentInfo) → List String →
    Except PyErr (List (String × ComponentInfo))
  | comps, [] => .ok comps
  | comps, t :: ts =>
      match dict_get comps t with
      | none => .error .keyError
      | some info =>
          match info.obj with
          | .single a => do
              let a' ← Assignment.apply_clobber z a
              apply_clobber_targets z
                (dict_set comps t { info with obj := .single a' }) ts
          | .group _ => .error .attributeError

/-- objects.Course.apply_clobber.  The result pairs the post-call state with
an optional raised error, because the auto-revert of a previously active
clobber mutates the course before validation can fail.  An error raised
inside the selection loop (only possible from component states that the
factory methods cannot produce) is reported with the loop's updates dropped.
capacity = -1 stands for len(targets). -/
def Course.apply_clobber (c : Course) (source : String) (targets : List String)
    (capacity : Int := -1) : Course × Option PyErr :=
  match (if c.clobber_info.isSome then c.revert_clobber else .ok c) with
  | .error e => (c, some e)
  | .ok c1 =>
    if source ∈ targets then
      (c1, some (.valueError "Source assignment cannot be in targets."))
    else
      match dict_get c1.components source with
      | none => (c1, some (.valueError "Source assignment not found."))
      | some sinfo =>
        if ¬ sinfo.curved then
          (c1, some (.valueError "Source assignment is not curved."))
        else if sinfo.grouped then
          (c1, some (.valueError "Source assignment must be single not grouped."))
        else
          match targets_check c1.components targets 0 with
          | some e => (c1, some e)
          | none =>
            let capacity := if capacity = -1 then (targets.length : Int) else capacity
            match sinfo.obj.get_zscore with
            | .error e => (c1, some e)
            | .ok z_source =>
              match fetch_zscores c1.components targets with
              | .error e => (c1, some e)
              | .ok z_targets =>
                let clobbered := clobber_select z_source capacity (targets.zip z_targets)
                match apply_clobber_targets z_source c1.components clobbered with
                | .error e => (c1, some e)
                | .ok comps =>
                    ({ c1 with components := comps,
                               clobber_info := some ⟨source, clobbered⟩ }, none)

/-- objects.Course.remove_component: revert any active clobber first, then
detach; no-op when absent. -/
def Course.remove_component (c : Course) (component_id : String) :
    Except PyErr Course := do
  let c ← c.revert_clobber
  .ok (if (dict_get c.components component_id).isSome then
        { c with components := dict_del c.components component_id }
       else c)

/-- objects.Course.set_status. -/
def Course.set_status (c : Course) (status : String) : Except PyErr Course :=
  if status = "In Progress" ∨ status = "Completed" ∨ status = "Other" then
    .ok { c with status := status }
  else .error (.valueError "Invalid status.")

/-- objects.Profile. -/
structure Profile where
  courses : List (String × Course)
deriving DecidableEq, Repr

/-- objects.Profile.__getitem__: plain dictionary indexing, so a missing key
raises KeyError. -/
def Profile.getitem (p : Profile) (key : String) : Except PyErr Course :=
  match dict_get p.courses key with
  | some c => .ok c
  | none => .error .keyError

/-- objects.Profile.__delitem__. -/
def Profile.delitem (p : Profile) (key : String) : Except PyErr Profile :=
  match dict_get p.courses key with
  | some _ => .ok ⟨dict_del p.courses key⟩
  | none => .error .keyError

/-- objects.Profile.add_course. -/
def Profile.add_course (p : Profile) (corr : ℚ := 6/10)
    (name : Option String := none) (id : String := "cid") :
    Except PyErr Profile := do
  let name := match name with
    | none => some ("Course " ++ toString (p.courses.length + 1))
    | some n => some n
  let c ← Course.make corr name id
  .ok ⟨dict_set p.courses c.id c⟩

/-- objects.Profile.remove_course: despite its docstring, the body is a bare
del, so a missing id raises KeyError. -/
def Profile.remove_course (p : Profile) (course_id : String) :
    Except PyErr Profile :=
  match dict_get p.courses course_id with
  | some _ => .ok ⟨dict_del p.courses course_id⟩
  | none => .error .keyError

/-!
Serialization.  The _to_json methods build a tree of plain Python values
(dicts, lists, strings, numbers, booleans, None); PyVal is that tree.  The
_from_json methods read the same keys back.  The source assigns the values it
reads without type checks (Python duck typing); the decoders below demand the
shapes the encoders produce and raise TypeError otherwise.
-/

/-- A plain Python value tree, as produced by the _to_json methods. -/
inductive PyVal where
  | none
  | bool (b : Bool)
  | num (q : ℚ)
  | str (s : String)
  | list (xs : List PyVal)
  | dict (xs : List (String × PyVal))

/-- Encode an optional string (None or the string). -/
def enc_opt_str : Option String → PyVal
  | Option.none => .none
  | Option.some s => .str s

/-- Encode an optional float. -/
def enc_opt_num : Option ℚ → PyVal
  | Option.none => .none
  | Option.some q => .num q

/-- Encode the before_clobber snapshot dictionary. -/
def enc_snapshot : Option (ℚ × ℚ) → PyVal
  | Option.none => .none
  | Option.some (s, z) => .dict [("score", .num s), ("zscore", .num z)]

/-- Python d[key] on a json dictionary: KeyError when missing. -/
def jget (j : PyVal) (k : String) : Except PyErr PyVal :=
  match j with
  | .dict xs =>
      match dict_get xs k with
      | Option.some v => .ok v
      | Option.none => .error .keyError
  | _ => .error .typeError

/-- Read a string value. -/
def as_str : PyVal → Except PyErr String
  | .str s => .ok s
  | _ => .error .typeError

/-- Read a float value. -/
def as_num : PyVal → Except PyErr ℚ
  | .num q => .ok q
  | _ => .error .typeError

/-- Read a boolean value. -/
def as_bool : PyVal → Except PyErr Bool
  | .bool b => .ok b
  | _ => .error .typeError

/-- Read an integer value (a number with denominator 1). -/
def as_int (v : PyVal) : Except PyErr Int :=
  match v with
  | .num q => if q.den = 1 then .ok q.num else .error .typeError
  | _ => .error .typeError

/-- Read an optional string. -/
def as_opt_str : PyVal → Except PyErr (Option String)
  | .none => .ok Option.none
  | .str s => .ok (Option.some s)
  | _ => .error .typeError

/-- Read an optional float. -/
def as_opt_num : PyVal → Except PyErr (Option ℚ)
  | .none => .ok Option.none
  | .num q => .ok (Option.some q)
  | _ => .error .typeError

/-- Read a before_clobber snapshot. -/
def as_snapshot (v : PyVal) : Except PyErr (Option (ℚ × ℚ)) :=
  match v with
  | .none => .ok Option.none
  | .dict xs => do
      let s ← match dict_get xs "score" with
        | Option.some w => as_num w
        | Option.none => .error .keyError
      let z ← match dict_get xs "zscore" with
        | Option.some w => as_num w
        | Option.none => .error .keyError
      .ok (Option.some (s, z))
  | _ => .error .typeError

/-- objects.Assignment._to_json; the class tag is supplied by the role the
assignment plays (plain "Assignment" inside a group, the single-assignment
subclass names inside a Course). -/
def Assignment.to_json (cls : String) (a : Assignment) : PyVal :=
  .dict [("id", .str a.id), ("name", enc_opt_str a.name),
         ("weight", enc_opt_num a.weight), ("score", .num a.score),
         ("upper", .num a.upper), ("curved", .bool a.curved),
         ("mu", enc_opt_num a.mu), ("sigma", enc_opt_num a.sigma),
         ("zscore", .num a.zscore), ("clobbered", .bool a.clobbered),
         ("before_clobber", enc_snapshot a.before_clobber),
         ("class", .str cls)]

/-- objects.Assignment._from_json. -/
def Assignment.from_json (j : PyVal) : Except PyErr Assignment := do
  let id ← as_str (← jget j "id")
  let name ← as_opt_str (← jget j "name")
  let weight ← as_opt_num (← jget j "weight")
  let score ← as_num (← jget j "score")
  let upper ← as_num (← jget j "upper")
  let curved ← as_bool (← jget j "curved")
  let mu ← as_opt_num (← jget j "mu")
  let sigma ← as_opt_num (← jget j "sigma")
  let zscore ← as_num (← jget j "zscore")
  let clobbered ← as_bool (← jget j "clobbered")
  let before_clobber ← as_snapshot (← jget j "before_clobber")
  .ok { id := id, name := name, upper := upper, curved := curved, mu := mu,
        sigma := sigma, clobbered := clobbered,
        before_clobber := before_clobber, score := score, zscore := zscore,
        weight := weight }

/-- objects.AssignmentGroup._to_json, with the subclass tag from the curved
discriminant. -/
def AssignmentGroup.to_json (g : AssignmentGroup) : PyVal :=
  .dict [("id", .str g.id), ("name", enc_opt_str g.name),
         ("weight", .num g.weight), ("corr", enc_opt_num g.corr),
         ("curved", .bool g.curved), ("num_drops", .num (g.num_drops : ℚ)),
         ("assignments",
           .dict (g.assignments.map (fun p => (p.1, p.2.to_json "Assignment")))),
         ("class", .str (if g.curved then "CurvedAssignmentGroup"
                         else "UncurvedAssignmentGroup"))]

/-- The assignment-loading loop of AssignmentGroup._from_json: every entry
must carry the plain "Assignment" class tag (a bare assert). -/
def decode_assignments : List (String × PyVal) →
    Except PyErr (List (String × Assignment))
  | [] => .ok []
  | (k, v) :: rest => do
      let cls ← as_str (← jget v "class")
      if cls = "Assignment" then do
        let a ← Assignment.from_json v
        let tail ← decode_assignments rest
        .ok ((k, a) :: tail)
      else .error (.assertionError "")

/-- objects.AssignmentGroup._from_json.  The curved flag read from the json
is immediately overwritten by the concrete subclass constructor, which is the
curved argument here. -/
def AssignmentGroup.from_json (curved : Bool) (j : PyVal) :
    Except PyErr AssignmentGroup := do
  let id ← as_str (← jget j "id")
  let name ← as_opt_str (← jget j "name")
  let weight ← as_num (← jget j "weight")
  let corr ← as_opt_num (← jget j "corr")
  let _curved_json ← jget j "curved"
  let nd ← as_int (← jget j "num_drops")
  let adict ← match ← jget j "assignments" with
    | .dict xs => Except.ok xs
    | _ => Except.error PyErr.typeError
  let assignments ← decode_assignments adict
  .ok { id := id, weight := weight, name := name, corr := corr,
        curved := curved, num_drops := nd, assignments := assignments }

/-- The class tag a component object serializes under. -/
def CompObj.json_class : CompObj → String
  | .single a => if a.curved then "CurvedSingleAssignment"
                 else "UncurvedSingleAssignment"
  | .group g => if g.curved then "CurvedAssignmentGroup"
                else "UncurvedAssignmentGroup"

/-- Serialize a component object (the object slot of a component info). -/
def CompObj.to_json : CompObj → PyVal
  | .single a => a.to_json (CompObj.single a).json_class
  | .group g => g.to_json

/-- The component-loading dispatch of Course._from_json: the class tag must
be one of the four allowed component classes (a bare assert), and each class
reconstructs through its own override path. -/
def CompObj.from_json (v : PyVal) : Except PyErr CompObj := do
  let cls ← as_str (← jget v "class")
  if cls = "CurvedSingleAssignment" ∨ cls = "UncurvedSingleAssignment" then do
    let a ← Assignment.from_json v
    .ok (.single a)
  else if cls = "CurvedAssignmentGroup" then do
    let g ← AssignmentGroup.from_json true v
    .ok (.group g)
  else if cls = "UncurvedAssignmentGroup" then do
    let g ← AssignmentGroup.from_json false v
    .ok (.group g)
  else .error (.assertionError "")

/-- Serialize a component info entry (the metadata dict with the object
serialized in place). -/
def ComponentInfo.to_json (info : ComponentInfo) : PyVal :=
  .dict [("curved", .bool info.curved), ("weight", .num info.weight),
         ("grouped", .bool info.grouped), ("object", info.obj.to_json)]

/-- Decode a component info entry. -/
def ComponentInfo.from_json (v : PyVal) : Except PyErr ComponentInfo := do
  let curved ← as_bool (← jget v "curved")
  let weight ← as_num (← jget v "weight")
  let grouped ← as_bool (← jget v "grouped")
  let obj ← CompObj.from_json (← jget v "object")
  .ok { curved := curved, weight := weight, grouped := grouped, obj := obj }

/-- The component-loading loop of Course._from_json. -/
def decode_components : List (String × PyVal) →
    Except PyErr (List (String × ComponentInfo))
  | [] => .ok []
  | (k, v) :: rest => do
      let info ← ComponentInfo.from_json v
      let tail ← decode_components rest
      .ok ((k, info) :: tail)

/-- Encode the clobber_info record. -/
def enc_clobber_info : Option ClobberInfo → PyVal
  | Option.none => .none
  | Option.some ci =>
      .dict [("source", .str ci.source), ("targets", .list (ci.targets.map .str))]

/-- Decode a list of id strings. -/
def as_str_list : List PyVal → Except PyErr (List String)
  | [] => .ok []
  | v :: rest => do
      let s ← as_str v
      let tail ← as_str_list rest
      .ok (s :: tail)

/-- Decode the clobber_info record. -/
def dec_clobber_info (v : PyVal) : Except PyErr (Option ClobberInfo) :=
  match v with
  | .none => .ok Option.none
  | .dict xs => do
      let source ← match dict_get xs "source" with
        | Option.some w => as_str w
        | Option.none => .error .keyError
      let targets ← match dict_get xs "targets" with
        | Option.some (.list ws) => as_str_list ws
        | Option.some _ => .error .typeError
        | Option.none => .error .keyError
      .ok (Option.some { source := source, targets := targets })
  | _ => .error .typeError

/-- Encode a letter-boundary table. -/
def enc_boundaries (b : List (String × ℚ)) : PyVal :=
  .dict (b.map (fun p => (p.1, .num p.2)))

/-- Decode a letter-boundary table. -/
def dec_boundaries_entries : List (String × PyVal) →
    Except PyErr (List (String × ℚ))
  | [] => .ok []
  | (k, v) :: rest => do
      let q ← as_num v
      let tail ← dec_boundaries_entries rest
      .ok ((k, q) :: tail)

/-- Decode a letter-boundary table from a dict value. -/
def dec_boundaries (v : PyVal) : Except PyErr (List (String × ℚ)) :=
  match v with
  | .dict xs => dec_boundaries_entries xs
  | _ => .error .typeError

/-- objects.Course._to_json. -/
def Course.to_json (c : Course) : PyVal :=
  .dict [("id", .str c.id), ("name", .str c.name), ("corr", .num c.corr),
         ("status", .str c.status),
         ("clobber_info", enc_clobber_info c.clobber_info),
         ("uncurved_boundaries", enc_boundaries c.uncurved_boundaries),
         ("curved_boundaries", enc_boundaries c.curved_boundaries),
         ("components",
           .dict (c.components.map (fun p => (p.1, p.2.to_json)))),
         ("class", .str "Course")]

/-- objects.Course._from_json. -/
def Course.from_json (j : PyVal) : Except PyErr Course := do
  let id ← as_str (← jget j "id")
  let name ← as_str (← jget j "name")
  let corr ← as_num (← jget j "corr")
  let status ← as_str (← jget j "status")
  let clobber_info ← dec_clobber_info (← jget j "clobber_info")
  let ub ← dec_boundaries (← jget j "uncurved_boundaries")
  let cb ← dec_boundaries (← jget j "curved_boundaries")
  let cdict ← match ← jget j "components" with
    | .dict xs => Except.ok xs
    | _ => Except.error PyErr.typeError
  let components ← decode_components cdict
  .ok { id := id, corr := corr, name := name, status := status,
        components := components, clobber_info := clobber_info,
        uncurved_boundaries := ub, curved_boundaries := cb }

/-- objects.Profile.to_json: the id-to-course-json dictionary. -/
def Profile.to_json (p : Profile) : PyVal :=
  .dict (p.courses.map (fun q => (q.1, q.2.to_json)))

/-- The course-loading loop of Profile.from_json. -/
def decode_courses : List (String × PyVal) →
    Except PyErr (List (String × Course))
  | [] => .ok []
  | (k, v) :: rest => do
      let c ← Course.from_json v
      let tail ← decode_courses rest
      .ok ((k, c) :: tail)

/-- objects.Profile.from_json. -/
def Profile.from_json (j : PyVal) : Except PyErr Profile := do
  match j with
  | .dict xs => do
      let courses ← decode_courses xs
      .ok { courses := courses }
  | _ => .error .typeError

/-!
Specification-level restatement of the clobber selection and concrete
instances used by the verification below.
-/

/-- The clobber selection as the specification words it: repeatedly, while
capacity remains and at least one remaining target has a z-score strictly
below the source's, select the remaining target attaining the minimum
z-score (the first one on ties), record it, remove it from the pool and
decrement the capacity.  The minimum and the first-encountered tie-break are
stated through List.min? and List.findIdx, independently of the source's
argmin loop. -/
def spec_clobber_order (z_source : ℚ) : Nat → List (String × ℚ) → List String
  | 0, _ => []
  | cap + 1, pool =>
      if pool.any (fun p => p.2 < z_source) then
        match (pool.map Prod.snd).min? with
        | Option.some m =>
            let i := pool.findIdx (fun p => p.2 = m)
            (pool.getD i ("", 0)).1 :: spec_clobber_order z_source cap (pool.eraseIdx i)
        | Option.none => []
      else []

/-- The clobbered form of an assignment holding mu and sigma, as installed by
Assignment.apply_clobber with z-score z. -/
def clobbered_with (z : ℚ) (a : Assignment) : Assignment :=
  { a with clobbered := true,
           before_clobber := some (a.score, a.zscore),
           zscore := z,
           score := z * a.sigma.getD 0 + a.mu.getD 0 }

/-- A curved assignment in its freshly constructed state (score 50 of 100,
mu 50, sigma 10, hence z-score 0). -/
def assignment_ex : Assignment :=
  { id := "a", name := none, upper := 100, curved := true, mu := some 50,
    sigma := some 10, clobbered := false, before_clobber := none,
    score := 50, zscore := 0, weight := none }

/-- A freshly constructed uncurved assignment with upper 100. -/
def fresh_uncurved (score : ℚ) (nm id : String) : Assignment :=
  { id := id, name := some nm, upper := 100, curved := false, mu := none,
    sigma := none, clobbered := false, before_clobber := none,
    score := score, zscore := 0, weight := none }

/-- A freshly constructed curved assignment with upper 100. -/
def fresh_curved (score mu sigma : ℚ) (nm id : String) : Assignment :=
  { id := id, name := some nm, upper := 100, curved := true, mu := some mu,
    sigma := some sigma, clobbered := false, before_clobber := none,
    score := score, zscore := (score - mu) / sigma, weight := none }

/-- The component info a Course stores for a single assignment of the given
weight. -/
def single_info (curved : Bool) (w : ℚ) (a : Assignment) : ComponentInfo :=
  { curved := curved, weight := w, grouped := false,
    obj := .single { a with weight := some w } }

/-- An uncurved assignment group holding two assignments scoring 50 of 100,
built through the factory methods. -/
def group_cex : Except PyErr AssignmentGroup :=
  (AssignmentGroup.make_uncurved (1/2) none none 0 "g").bind (fun g =>
    (g.add_assignment_uncurved 50 (some "x") 100 "a1").bind (fun g =>
      g.add_assignment_uncurved 50 (some "y") 100 "a2"))

/-- The value group_cex reaches. -/
def group_cex_val : AssignmentGroup :=
  { id := "g", weight := 1/2, name := none, corr := none, curved := false,
    num_drops := 0,
    assignments := [("a1", fresh_uncurved 50 "x" "a1"),
                    ("a2", fresh_uncurved 50 "y" "a2")] }

/-- A curved assignment group (corr 0.6) holding two assignments
(60 and 80 of 100, both mu 50 sigma 10), built through the factory
methods. -/
def curved_group_ex : Except PyErr AssignmentGroup :=
  (AssignmentGroup.make_curved (1/2) none (some (6/10)) 0 "g").bind (fun g =>
    (g.add_assignment_curved 60 (some "x") 100 (some 50) (some 10) "a1").bind (fun g =>
      g.add_assignment_curved 80 (some "y") 100 (some 50) (some 10) "a2"))

/-- The value curved_group_ex reaches. -/
def curved_group_val : AssignmentGroup :=
  { id := "g", weight := 1/2, name := none, corr := some (6/10), curved := true,
    num_drops := 0,
    assignments := [("a1", fresh_curved 60 50 10 "x" "a1"),
                    ("a2", fresh_curved 80 50 10 "y" "a2")] }

/-- A course holding two uncurved single components of weights 0.7 and 0.6
(total 1.3), built through the factory methods. -/
def course_overflow_ex : Except PyErr Course :=
  (Course.make (6/10) none "c").bind (fun c =>
    (c.add_uncurved_single (7/10) 80 (some "x") 100 "a1").bind (fun c =>
      c.add_uncurved_single (6/10) 90 (some "y") 100 "a2"))

/-- The value course_overflow_ex reaches. -/
def course_overflow_val : Course :=
  { id := "c", corr := 6/10, name := "My Course", status := "Other",
    components :=
      [("a1", single_info false (7/10) (fresh_uncurved 80 "x" "a1")),
       ("a2", single_info false (6/10) (fresh_uncurved 90 "y" "a2"))],
    clobber_info := none,
    uncurved_boundaries := default_uncurved_boundaries,
    curved_boundaries := default_curved_boundaries }

/-- A curved single component of weight 0.3 over the standard mu 50 sigma 10
curve, as Course.add_curved_single stores it. -/
def curved_comp (score : ℚ) (nm id : String) : ComponentInfo :=
  single_info true (3/10) (fresh_curved score 50 10 nm id)

/-- A course with two curved single components A (z-score 2) and B
(z-score -1), built through the factory methods. -/
def course_ab_ex : Except PyErr Course :=
  (Course.make (6/10) none "c").bind (fun c =>
    (c.add_curved_single (3/10) 70 (some "A") 100 (some 50) (some 10) "A").bind (fun c =>
      c.add_curved_single (3/10) 40 (some "B") 100 (some 50) (some 10) "B"))

/-- The value course_ab_ex reaches. -/
def course_ab_val : Course :=
  { id := "c", corr := 6/10, name := "My Course", status := "Other",
    components := [("A", curved_comp 70 "A" "A"), ("B", curved_comp 40 "B" "B")],
    clobber_info := none,
    uncurved_boundaries := default_uncurved_boundaries,
    curved_boundaries := default_curved_boundaries }

/-- course_ab_val after the clobber of A is applied onto B: B carries A's
z-score 2 (score 2 * 10 + 50 = 70) with its original state snapshotted. -/
def course_ab_clobbered_val : Course :=
  { course_ab_val with
    components :=
      [("A", curved_comp 70 "A" "A"),
       ("B", { curved := true, weight := 3/10, grouped := false,
               obj := .single
                 { id := "B", name := some "B", upper := 100, curved := true,
                   mu := some 50, sigma := some 10, clobbered := true,
                   before_clobber := some (40, -1), score := 70, zscore := 2,
                   weight := some (3/10) } })],
    clobber_info := some { source := "A", targets := ["B"] } }

/-- A course with three curved single components: s (z-score 2),
t1 (z-score -1) and t2 (z-score 0.5), built through the factory methods. -/
def course_clobber_ex : Except PyErr Course :=
  (Course.make (6/10) none "c").bind (fun c =>
    (c.add_curved_single (3/10) 70 (some "s") 100 (some 50) (some 10) "s").bind (fun c =>
      (c.add_curved_single (3/10) 40 (some "t1") 100 (some 50) (some 10) "t1").bind (fun c =>
        c.add_curved_single (3/10) 55 (some "t2") 100 (some 50) (some 10) "t2")))

/-- The value course_clobber_ex reaches. -/
def course_clobber_val : Course :=
  { id := "c", corr := 6/10, name := "My Course", status := "Other",
    components := [("s", curved_comp 70 "s" "s"), ("t1", curved_comp 40 "t1" "t1"),
                   ("t2", curved_comp 55 "t2" "t2")],
    clobber_info := none,
    uncurved_boundaries := default_uncurved_boundaries,
    curved_boundaries := default_curved_boundaries }

/-!
Round-trip lemmas: each decoder inverts its encoder.
-/

theorem as_opt_str_enc (x : Option String) : as_opt_str (enc_opt_str x) = .ok x := by
  cases x <;> rfl

theorem as_opt_num_enc (x : Option ℚ) : as_opt_num (enc_opt_num x) = .ok x := by
  cases x <;> rfl

theorem as_snapshot_enc (x : Option (ℚ × ℚ)) : as_snapshot (enc_snapshot x) = .ok x := by
  match x with
  | Option.none => rfl
  | Option.some (s, z) =>
      simp [enc_snapshot, as_snapshot, dict_get, as_num, bind, Except.bind]

theorem as_int_num (n : Int) : as_int (.num (n : ℚ)) = .ok n := by
  simp [as_int]

theorem assignment_from_to_json (cls : String) (a : Assignment) :
    Assignment.from_json (a.to_json cls) = .ok a := by
  simp [Assignment.to_json, Assignment.from_json, jget, dict_get, as_str,
        as_num, as_bool, as_opt_str_enc, as_opt_num_enc, as_snapshot_enc,
        bind, Except.bind]

theorem jget_assignment_class (cls : String) (a : Assignment) :
    jget (a.to_json cls) "class" = .ok (.str cls) := by
  simp [Assignment.to_json, jget, dict_get]

theorem decode_assignments_enc (l : List (String × Assignment)) :
    decode_assignments (l.map (fun p => (p.1, p.2.to_json "Assignment"))) = .ok l := by
  induction l with
  | nil => rfl
  | cons hd tl ih =>
      obtain ⟨k, a⟩ := hd
      simp [decode_assignments, jget_assignment_class, as_str, ih,
            assignment_from_to_json, bind, Except.bind]

theorem group_from_to_json (g : AssignmentGroup) :
    AssignmentGroup.from_json g.curved g.to_json = .ok g := by
  simp [AssignmentGroup.to_json, AssignmentGroup.from_json, jget, dict_get,
        as_str, as_num, as_opt_str_enc, as_opt_num_enc, as_int_num,
        decode_assignments_enc, bind, Except.bind]

theorem jget_group_class (g : AssignmentGroup) :
    jget g.to_json "class" =
      .ok (.str (if g.curved then "CurvedAssignmentGroup"
                 else "UncurvedAssignmentGroup")) := by
  simp [AssignmentGroup.to_json, jget, dict_get]

theorem compobj_from_to_json (o : CompObj) :
    CompObj.from_json o.to_json = .ok o := by
  match o with
  | .single a =>
      by_cases hc : a.curved <;>
        simp [CompObj.to_json, CompObj.from_json, CompObj.json_class, hc,
              jget_assignment_class, as_str, assignment_from_to_json,
              bind, Except.bind]
  | .group g =>
      by_cases hc : g.curved
      · have h := group_from_to_json g
        rw [hc] at h
        simp [CompObj.to_json, CompObj.from_json, jget_group_class, hc,
              as_str, h, bind, Except.bind]
      · have h := group_from_to_json g
        simp only [Bool.not_eq_true] at hc
        rw [hc] at h
        simp [CompObj.to_json, CompObj.from_json, jget_group_class, hc,
              as_str, h, bind, Except.bind]

theorem component_info_from_to_json (info : ComponentInfo) :
    ComponentInfo.from_json info.to_json = .ok info := by
  simp [ComponentInfo.to_json, ComponentInfo.from_json, jget, dict_get,
        as_bool, as_num, compobj_from_to_json, bind, Except.bind]

theorem decode_components_enc (l : List (String × ComponentInfo)) :
    decode_components (l.map (fun p => (p.1, p.2.to_json))) = .ok l := by
  induction l with
  | nil => rfl
  | cons hd tl ih =>
      obtain ⟨k, info⟩ := hd
      simp [decode_components, component_info_from_to_json, ih, bind, Except.bind]

theorem dec_clobber_info_enc (x : Option ClobberInfo) :
    dec_clobber_info (enc_clobber_info x) = .ok x := by
  match x with
  | Option.none => rfl
  | Option.some ci =>
      have hl : ∀ ts : List String, as_str_list (ts.map PyVal.str) = .ok ts := by
        intro ts
        induction ts with
        | nil => rfl
        | cons h t ih => simp [as_str_list, as_str, ih, bind, Except.bind]
      simp [enc_clobber_info, dec_clobber_info, dict_get, as_str, hl,
            bind, Except.bind]

theorem dec_boundaries_enc (b : List (String × ℚ)) :
    dec_boundaries (enc_boundaries b) = .ok b := by
  have : ∀ l : List (String × ℚ),
      dec_boundaries_entries (l.map (fun p => (p.1, PyVal.num p.2))) = .ok l := by
    intro l
    induction l with
    | nil => rfl
    | cons h t ih => simp [dec_boundaries_entries, as_num, ih, bind, Except.bind]
  simp [enc_boundaries, dec_boundaries, this]

theorem course_from_to_json (c : Course) :
    Course.from_json c.to_json = .ok c := by
  simp [Course.to_json, Course.from_json, jget, dict_get, as_str, as_num,
        dec_clobber_info_enc, dec_boundaries_enc, decode_components_enc,
        bind, Except.bind]

theorem profile_from_to_json (p : Profile) :
    Profile.from_json p.to_json = .ok p := by
  have : ∀ l : List (String × Course),
      decode_courses (l.map (fun q => (q.1, q.2.to_json))) = .ok l := by
    intro l
    induction l with
    | nil => rfl
    | cons h t ih => simp [decode_courses, course_from_to_json, ih, bind, Except.bind]
  simp [Profile.to_json, Profile.from_json, this, bind, Except.bind]

/-!
Step lemmas for the factory methods on valid arguments, and evaluation
lemmas: the factory-method chains above reach the stated values.
-/

theorem ok_bind {α β : Type} (a : α) (f : α → Except PyErr β) :
    Except.bind (.ok a) f = f a := rfl

theorem make_curved_group_ok (w : ℚ) (corr : Option ℚ) (nd : Int) (id : String)
    (hw : ¬(w > 1 ∨ w ≤ 0)) :
    AssignmentGroup.make_curved w none corr nd id
      = .ok { id := id, weight := w, name := none, corr := corr,
              curved := true, num_drops := nd, assignments := [] } := by
  simp [AssignmentGroup.make_curved, hw]

theorem make_uncurved_group_ok (w : ℚ) (corr : Option ℚ) (nd : Int) (id : String)
    (hw : ¬(w > 1 ∨ w ≤ 0)) :
    AssignmentGroup.make_uncurved w none corr nd id
      = .ok { id := id, weight := w, name := none, corr := corr,
              curved := false, num_drops := nd, assignments := [] } := by
  simp [AssignmentGroup.make_uncurved, hw]

theorem add_assignment_curved_ok (g : AssignmentGroup) (score mu sigma : ℚ)
    (nm id : String) (hmu : mu ≠ 0) (hsg : sigma ≠ 0) :
    g.add_assignment_curved score (some nm) 100 (some mu) (some sigma) id
      = .ok { g with assignments :=
                dict_set g.assignments id (fresh_curved score mu sigma nm id) } := by
  simp [AssignmentGroup.add_assignment_curved, Assignment.make, py_truthy,
        py_div, hmu, hsg, fresh_curved, bind, Except.bind]

theorem add_assignment_uncurved_ok (g : AssignmentGroup) (score : ℚ)
    (nm id : String) :
    g.add_assignment_uncurved score (some nm) 100 id
      = .ok { g with assignments :=
                dict_set g.assignments id (fresh_uncurved score nm id) } := by
  simp [AssignmentGroup.add_assignment_uncurved, Assignment.make, py_truthy,
        fresh_uncurved, bind, Except.bind]

theorem course_make_ok (corr : ℚ) (id : String) (h : ¬(corr < 0 ∨ corr > 1)) :
    Course.make corr none id
      = .ok { id := id, corr := corr, name := "My Course", status := "Other",
              components := [], clobber_info := none,
              uncurved_boundaries := default_uncurved_boundaries,
              curved_boundaries := default_curved_boundaries } := by
  simp [Course.make, h]

theorem add_curved_single_ok (c : Course) (w score mu sigma : ℚ)
    (nm id : String) (hw : ¬(w > 1 ∨ w ≤ 0)) (hmu : mu ≠ 0) (hsg : sigma ≠ 0) :
    c.add_curved_single w score (some nm) 100 (some mu) (some sigma) id
      = .ok { c with components :=
                dict_set c.components id (single_info true w (fresh_curved score mu sigma nm id)) } := by
  simp [Course.add_curved_single, Assignment.make, py_truthy, py_div,
        hw, hmu, hsg, single_info, fresh_curved, bind, Except.bind]

theorem add_uncurved_single_ok (c : Course) (w score : ℚ) (nm id : String)
    (hw : ¬(w > 1 ∨ w ≤ 0)) :
    c.add_uncurved_single w score (some nm) 100 id
      = .ok { c with components :=
                dict_set c.components id (single_info false w (fresh_uncurved score nm id)) } := by
  simp [Course.add_uncurved_single, Assignment.make, py_truthy,
        hw, single_info, fresh_uncurved, bind, Except.bind]

theorem group_cex_eval : group_cex = .ok group_cex_val := by
  rw [group_cex, make_uncurved_group_ok _ _ _ _ (by norm_num), ok_bind,
      add_assignment_uncurved_ok, ok_bind, add_assignment_uncurved_ok]
  simp [dict_set, group_cex_val, fresh_uncurved]

theorem curved_group_eval : curved_group_ex = .ok curved_group_val := by
  rw [curved_group_ex, make_curved_group_ok _ _ _ _ (by norm_num), ok_bind,
      add_assignment_curved_ok _ _ _ _ _ _ (by norm_num) (by norm_num), ok_bind,
      add_assignment_curved_ok _ _ _ _ _ _ (by norm_num) (by norm_num)]
  simp [dict_set, curved_group_val, fresh_curved]

theorem course_overflow_eval : course_overflow_ex = .ok course_overflow_val := by
  rw [course_overflow_ex, course_make_ok _ _ (by norm_num), ok_bind,
      add_uncurved_single_ok _ _ _ _ _ (by norm_num), ok_bind,
      add_uncurved_single_ok _ _ _ _ _ (by norm_num)]
  simp [dict_set, course_overflow_val, single_info, fresh_uncurved]

theorem course_ab_eval : course_ab_ex = .ok course_ab_val := by
  rw [course_ab_ex, course_make_ok _ _ (by norm_num), ok_bind,
      add_curved_single_ok _ _ _ _ _ _ _ (by norm_num) (by norm_num) (by norm_num),
      ok_bind,
      add_curved_single_ok _ _ _ _ _ _ _ (by norm_num) (by norm_num) (by norm_num)]
  simp [dict_set, course_ab_val, curved_comp, single_info, fresh_curved]

theorem course_clobber_eval : course_clobber_ex = .ok course_clobber_val := by
  rw [course_clobber_ex, course_make_ok _ _ (by norm_num), ok_bind,
      add_curved_single_ok _ _ _ _ _ _ _ (by norm_num) (by norm_num) (by norm_num),
      ok_bind,
      add_curved_single_ok _ _ _ _ _ _ _ (by norm_num) (by norm_num) (by norm_num),
      ok_bind,
      add_curved_single_ok _ _ _ _ _ _ _ (by norm_num) (by norm_num) (by norm_num)]
  simp [dict_set, course_clobber_val, curved_comp, single_info, fresh_curved]

/-!
Group-aggregation lemmas: the fold loops compute sums (and the sigma fold),
and the concrete groups' drop results.
-/

theorem uncurved_group_fold_eq (l : List Assignment) :
    ∀ acc : ℚ, (∀ a ∈ l, a.upper ≠ 0) →
      uncurved_group_fold l acc
        = .ok (acc + (l.map (fun a => a.score / a.upper)).sum) := by
  induction l with
  | nil =>
      intro acc h
      simp [uncurved_group_fold]
  | cons a t ih =>
      intro acc h
      have ha : a.upper ≠ 0 := h a (List.mem_cons_self a t)
      simp [uncurved_group_fold, Assignment.get_summary, Summary.make, ha,
            bind, Except.bind,
            ih _ (fun x hx => h x (List.mem_cons_of_mem a hx))]
      ring

theorem curved_group_fold_eq (sqrt : ℚ → ℚ) (ρ : ℚ) (l : List Assignment) :
    ∀ fs fm fsig : ℚ,
      (∀ a ∈ l, a.upper ≠ 0 ∧ py_truthy a.mu ∧ py_truthy a.sigma) →
      curved_group_fold sqrt (some ρ) l (fs, fm, fsig)
        = .ok (fs + (l.map (fun a => a.score / a.upper)).sum,
               fm + (l.map (fun a => a.mu.getD 0 / a.upper)).sum,
               (l.map (fun a => a.sigma.getD 0 / a.upper)).foldl
                 (fun acc sg => correlated_sigma_sum sqrt acc sg ρ) fsig) := by
  induction l with
  | nil =>
      intro fs fm fsig h
      simp [curved_group_fold]
  | cons a t ih =>
      intro fs fm fsig h
      obtain ⟨ha, ham, has⟩ := h a (List.mem_cons_self a t)
      simp [curved_group_fold, Assignment.get_summary, Summary.make, ha, ham,
            has, bind, Except.bind,
            ih _ _ _ (fun x hx => h x (List.mem_cons_of_mem a hx))]
      constructor <;> ring

theorem group_cex_apply_drop :
    group_cex_val.apply_drop
      = ([fresh_uncurved 50 "x" "a1", fresh_uncurved 50 "y" "a2"], true) := by
  have hs : List.mergeSort
      [fresh_uncurved 50 "x" "a1", fresh_uncurved 50 "y" "a2"]
      (fun a b => a.get_primary_score ≤ b.get_primary_score)
      = [fresh_uncurved 50 "x" "a1", fresh_uncurved 50 "y" "a2"] := by
    apply List.mergeSort_of_sorted
    norm_num [fresh_uncurved, Assignment.get_primary_score]
  simp [AssignmentGroup.apply_drop, group_cex_val, hs, py_slice_from]

theorem curved_group_apply_drop :
    curved_group_val.apply_drop
      = ([fresh_curved 60 50 10 "x" "a1", fresh_curved 80 50 10 "y" "a2"], true) := by
  have hs : List.mergeSort
      [fresh_curved 60 50 10 "x" "a1", fresh_curved 80 50 10 "y" "a2"]
      (fun a b => a.get_primary_score ≤ b.get_primary_score)
      = [fresh_curved 60 50 10 "x" "a1", fresh_curved 80 50 10 "y" "a2"] := by
    apply List.mergeSort_of_sorted
    norm_num [fresh_curved, Assignment.get_primary_score]
  simp [AssignmentGroup.apply_drop, curved_group_val, hs, py_slice_from]

/-!
Claim theorems.
-/

/-- C1 counterexample: the uncurved group holding two assignments scoring
50 of 100 aggregates to fractional score 1 — the sum of the retained
fractional scores — while the arithmetic mean of the retained fractional
scores is 1/2, so get_summary's aggregate is not the mean the claim
states. -/
theorem C1_mean_counterexample :
    group_cex = .ok group_cex_val
    ∧ (group_cex_val.get_summary (fun x => x)).map Summary.percentage_f = .ok 1
    ∧ ((group_cex_val.apply_drop).1.map (fun a => a.score / a.upper)).sum
        / ((group_cex_val.apply_drop).1.length : ℚ) = 1/2
    ∧ (1 : ℚ) ≠ 1/2 := by
  refine ⟨group_cex_eval, ?_, ?_, by norm_num⟩
  · have h1 : ¬ group_cex_val.assignments.length = 0 := by
      simp [group_cex_val]
    have hf := uncurved_group_fold_eq
      [fresh_uncurved 50 "x" "a1", fresh_uncurved 50 "y" "a2"] 0
      (by norm_num [fresh_uncurved])
    have hcurved : group_cex_val.curved = false := rfl
    simp [AssignmentGroup.get_summary, h1, group_cex_apply_drop, hcurved,
          UncurvedAssignmentGroup.calculate_summaries, hf, Summary.make,
          py_truthy, bind, Except.bind]
    norm_num [fresh_uncurved, Except.map]
  · simp [group_cex_apply_drop, fresh_uncurved]
    norm_num

/-- C1 amended: for every assignment group with at least one assignment,
get_summary's aggregate fractional score is the SUM (not the mean) of the
retained assignments' fractional scores; for a curved group the aggregate mu
is likewise the sum of retained fractional mus and the aggregate sigma is
the Variance Combiner folded pairwise over the retained fractional sigmas
using the group's corr with NO 1/n pre-scaling (a zero aggregate mu is
coerced to an absent field by the summary constructor's truthiness). -/
theorem C1_group_aggregate_amended (sqrt : ℚ → ℚ) (g : AssignmentGroup)
    (hne : g.assignments ≠ []) :
    (g.curved = false →
      (∀ a ∈ (g.apply_drop).1, a.upper ≠ 0) →
      ∃ s, g.get_summary sqrt = .ok s
        ∧ s.percentage_f = ((g.apply_drop).1.map (fun a => a.score / a.upper)).sum
        ∧ s.drop_applied = some (g.apply_drop).2)
    ∧ (∀ ρ, g.curved = true → g.corr = some ρ →
      (∀ a ∈ (g.apply_drop).1, a.upper ≠ 0 ∧ py_truthy a.mu ∧ py_truthy a.sigma) →
      ((g.apply_drop).1.map (fun a => a.sigma.getD 0 / a.upper)).foldl
          (fun acc sg => correlated_sigma_sum sqrt acc sg ρ) 0 ≠ 0 →
      ∃ s, g.get_summary sqrt = .ok s
        ∧ s.percentage_f = ((g.apply_drop).1.map (fun a => a.score / a.upper)).sum
        ∧ s.mu_f = (if ((g.apply_drop).1.map (fun a => a.mu.getD 0 / a.upper)).sum = 0
                    then none
                    else some ((g.apply_drop).1.map (fun a => a.mu.getD 0 / a.upper)).sum)
        ∧ s.sigma_f = some (((g.apply_drop).1.map (fun a => a.sigma.getD 0 / a.upper)).foldl
            (fun acc sg => correlated_sigma_sum sqrt acc sg ρ) 0)
        ∧ s.drop_applied = some (g.apply_drop).2) := by
  have hlen : ¬ g.assignments.length = 0 := by
    simpa [List.length_eq_zero] using hne
  constructor
  · intro hcu hup
    have hf := uncurved_group_fold_eq (g.apply_drop).1 0 hup
    simp [AssignmentGroup.get_summary, hlen, hcu,
          UncurvedAssignmentGroup.calculate_summaries, hf, Summary.make,
          py_truthy, bind, Except.bind]
  · intro ρ hcu hcorr hass hsig
    have hf := curved_group_fold_eq sqrt ρ (g.apply_drop).1 0 0 0 hass
    simp only [Prod.mk_zero_zero] at hf
    simp [AssignmentGroup.get_summary, hlen, hcu, hcorr,
          CurvedAssignmentGroup.calculate_summaries, hf, Summary.make,
          py_div, hsig, py_truthy, bind, Except.bind]

/-- The classification loop raises the weight-overflow ValueError whenever
the initial total plus the weights of a nonempty component list exceeds 1:
the running total crosses 1 at the latest on the last component. -/
theorem classify_overflow :
    ∀ (l : List (String × ComponentInfo)) (t0 : ℚ) (cs us : List CompObj),
      l ≠ [] → 1 < t0 + (l.map (fun p => p.2.weight)).sum →
      classify_components l t0 cs us
        = .error (.valueError "Total weight exceeds one.") := by
  intro l
  induction l with
  | nil => simp
  | cons hd tl ih =>
      intro t0 cs us _ hsum
      simp only [List.map_cons, List.sum_cons] at hsum
      by_cases hc : t0 + hd.2.weight > 1
      · simp [classify_components, hc]
      · have hne : tl ≠ [] := by
          rintro rfl
          simp at hsum
          exact hc (by linarith)
        have hrec : 1 < (t0 + hd.2.weight) + (tl.map (fun p => p.2.weight)).sum := by
          linarith
        simp [classify_components, hc, ih _ _ _ hne hrec]

theorem isOk_bind_ok {α β : Type} (x : Except PyErr α) (g : α → β) :
    (x.bind (fun a => Except.ok (g a))).isOk = x.isOk := by
  cases x <;> rfl

/-- Assignment construction succeeds exactly when an uncurved assignment is
asked for, or both mu and sigma are provided and truthy; in particular the
outcome is independent of the name, id, score and upper arguments. -/
theorem make_isOk (s u : ℚ) (mu sg : Option ℚ) (cu : Bool)
    (nm : Option String) (id : String) :
    (Assignment.make s nm u mu sg cu id).isOk
      = (!cu || (py_truthy mu && py_truthy sg)) := by
  by_cases hcu : cu
  · by_cases h1 : mu = none ∨ sg = none
    · rcases h1 with h | h <;>
        simp [Assignment.make, hcu, h, py_truthy, Except.isOk, Except.toBool]
    · push_neg at h1
      obtain ⟨m, hm⟩ := Option.ne_none_iff_exists'.mp h1.1
      obtain ⟨x, hx⟩ := Option.ne_none_iff_exists'.mp h1.2
      subst hm
      subst hx
      by_cases hm0 : m = 0 <;> by_cases hx0 : x = 0 <;>
        simp [Assignment.make, hcu, py_truthy, hm0, hx0, py_div,
              bind, Except.bind, Except.isOk, Except.toBool]
  · simp [Assignment.make, hcu, Except.isOk, Except.toBool]

theorem isOk_monad_bind_ok {α β : Type} (x : Except PyErr α) (g : α → β) :
    (x >>= (fun a => Except.ok (g a))).isOk = x.isOk := by
  cases x <;> rfl

/-- Course.add_curved_single succeeds exactly when its own arguments are
valid: weight in (0, 1] and truthy mu and sigma; the course's existing
components play no part. -/
theorem add_curved_single_isOk (c : Course) (w s : ℚ) (nm : Option String)
    (u : ℚ) (mu sg : Option ℚ) (id : String) :
    (Course.add_curved_single c w s nm u mu sg id).isOk
      = (!(decide (w > 1 ∨ w ≤ 0)) && (py_truthy mu && py_truthy sg)) := by
  simp only [Course.add_curved_single]
  by_cases hw : w > 1 ∨ w ≤ 0
  · simp [hw, Except.isOk, Except.toBool]
  · rw [if_neg hw, isOk_monad_bind_ok, make_isOk]
    simp [hw]

/-- Course.add_uncurved_single succeeds exactly when its weight is valid. -/
theorem add_uncurved_single_isOk (c : Course) (w s : ℚ) (nm : Option String)
    (u : ℚ) (id : String) :
    (Course.add_uncurved_single c w s nm u id).isOk
      = !(decide (w > 1 ∨ w ≤ 0)) := by
  simp only [Course.add_uncurved_single]
  by_cases hw : w > 1 ∨ w ≤ 0
  · simp [hw, Except.isOk, Except.toBool]
  · rw [if_neg hw, isOk_monad_bind_ok, make_isOk]
    simp [hw]

/-- Course.add_curved_group succeeds exactly when its weight is valid; in
particular the corr argument is never validated. -/
theorem add_curved_group_isOk (c : Course) (w : ℚ) (nm : Option String)
    (corr : Option ℚ) (nd : Int) (id : String) :
    (Course.add_curved_group c w nm corr nd id).isOk
      = !(decide (w > 1 ∨ w ≤ 0)) := by
  simp only [Course.add_curved_group]
  by_cases hw : w > 1 ∨ w ≤ 0 <;>
    simp [AssignmentGroup.make_curved, hw, isOk_monad_bind_ok,
          bind, Except.bind, Except.isOk, Except.toBool]

/-- Course.add_uncurved_group succeeds exactly when its weight is valid. -/
theorem add_uncurved_group_isOk (c : Course) (w : ℚ) (nm : Option String)
    (corr : Option ℚ) (nd : Int) (id : String) :
    (Course.add_uncurved_group c w nm corr nd id).isOk
      = !(decide (w > 1 ∨ w ≤ 0)) := by
  simp only [Course.add_uncurved_group]
  by_cases hw : w > 1 ∨ w ≤ 0 <;>
    simp [AssignmentGroup.make_uncurved, hw, isOk_monad_bind_ok,
          bind, Except.bind, Except.isOk, Except.toBool]

/-- Witness for the amended C1 at the concrete curved group (scores 60 and
80 of 100, mu 50 sigma 10, corr 0.6). -/
theorem C1_group_aggregate_amended_witness :
    ∃ s, curved_group_val.get_summary (fun x => x) = .ok s
      ∧ s.percentage_f
          = ((curved_group_val.apply_drop).1.map (fun a => a.score / a.upper)).sum
      ∧ s.mu_f = (if ((curved_group_val.apply_drop).1.map
                      (fun a => a.mu.getD 0 / a.upper)).sum = 0
                  then none
                  else some ((curved_group_val.apply_drop).1.map
                      (fun a => a.mu.getD 0 / a.upper)).sum)
      ∧ s.sigma_f = some (((curved_group_val.apply_drop).1.map
            (fun a => a.sigma.getD 0 / a.upper)).foldl
            (fun acc sg => correlated_sigma_sum (fun x => x) acc sg (6/10)) 0)
      ∧ s.drop_applied = some (curved_group_val.apply_drop).2 :=
  (C1_group_aggregate_amended (fun x => x) curved_group_val
      (by simp [curved_group_val])).2 (6/10) rfl rfl
    (by
      rw [curved_group_apply_drop]
      norm_num [fresh_curved, py_truthy])
    (by
      rw [curved_group_apply_drop]
      norm_num [fresh_curved, correlated_sigma_sum])

/-- C4: for every entity kind (Assignment, AssignmentGroup, Course, Profile)
and every entity state, reconstructing from the exported plain-data form
(export followed by import) returns exactly the original entity, so every
observable accessor — id, name, weight, scores, z-scores, curved flags,
boundaries, nested components and assignments, and active clobber state —
agrees with the original. -/
theorem C4_export_import_roundtrip :
    (∀ (cls : String) (a : Assignment), Assignment.from_json (a.to_json cls) = .ok a)
    ∧ (∀ g : AssignmentGroup, AssignmentGroup.from_json g.curved g.to_json = .ok g)
    ∧ (∀ c : Course, Course.from_json c.to_json = .ok c)
    ∧ (∀ p : Profile, Profile.from_json p.to_json = .ok p) :=
  ⟨assignment_from_to_json, group_from_to_json, course_from_to_json,
   profile_from_to_json⟩

/-- C10: constructing a curved Assignment with mu explicitly 0, or sigma
explicitly 0, passes the missing-mu/sigma validation (0 is not None), but
truthiness coerces the 0 to None and the z-score computation then raises an
unhandled TypeError, so the constructor never completes on these inputs. -/
theorem C10_zero_mu_sigma_typeerror :
    (∀ (score upper sg : ℚ) (name : Option String) (id : String),
        Assignment.make score name upper (some 0) (some sg) true id
          = .error .typeError)
    ∧ (∀ (score upper m : ℚ) (name : Option String) (id : String), m ≠ 0 →
        Assignment.make score name upper (some m) (some 0) true id
          = .error .typeError) := by
  constructor
  · intro score upper sg name id
    by_cases hsg : sg = 0 <;> simp [Assignment.make, py_truthy, hsg]
  · intro score upper m name id hm
    simp [Assignment.make, py_truthy, hm]

/-- Witness for C10: mu = 0 (with sigma 10) and sigma = 0 (with mu 50) both
end in TypeError, not the curved-missing-mu/sigma ValueError. -/
theorem C10_zero_mu_sigma_typeerror_witness :
    Assignment.make 50 none 100 (some 0) (some 10) true "a" = .error .typeError
    ∧ ((50 : ℚ) ≠ 0
       ∧ Assignment.make 50 none 100 (some 50) (some 0) true "a"
           = .error .typeError) :=
  ⟨C10_zero_mu_sigma_typeerror.1 50 100 10 none "a",
   by norm_num,
   C10_zero_mu_sigma_typeerror.2 50 100 50 none "a" (by norm_num)⟩

/-- C7: evaluation at the failing input.  A curved assignment whose z-score
is exactly 0 (score 50, upper 100, mu 50, sigma 10) yields a summary whose
zscore slot is absent while the mu and sigma slots are present, because the
summary constructor's truthiness test treats the float 0 like None; this
breaks the all-present-or-all-absent invariant for the curved-only fields. -/
theorem C7_zero_zscore_field_dropped :
    (Assignment.make 50 none 100 (some 50) (some 10) true "a").bind
        Assignment.get_summary
      = .ok { percentage_f := 1/2, percentage := 50, zscore := none,
              mu_f := some (1/2), mu := some 50, sigma_f := some (1/10),
              sigma := some 10, drop_applied := none, is_final := none,
              class_curved := none, grade := none, error_message := none } := by
  simp +decide only [Assignment.make, Assignment.get_summary, Summary.make,
    py_truthy, py_div, py_round2, py_percentage, bind, Except.bind]
  norm_num

/-- C9: an unknown Identifier passed to Profile's fetch-style accessors
raises KeyError instead of resolving to an absent-result signal: __getitem__
indexes the courses dict directly, and remove_course performs a bare del
despite its docstring's promise to do nothing when the course is missing. -/
theorem C9_lookup_miss_raises :
    Profile.getitem { courses := [] } "missing" = .error .keyError
    ∧ Profile.remove_course { courses := [] } "missing" = .error .keyError :=
  ⟨rfl, rfl⟩

/-- C6: clobbers do not stack.  For a curved assignment (mu and sigma held,
not clobbered), apply_clobber z1 then apply_clobber z2 leaves the z2 state
with score z2 * sigma + mu; one revert_clobber restores the original pre-z1
assignment exactly, and a second consecutive revert_clobber is a no-op that
does not raise. -/
theorem C6_clobber_overwrite (a : Assignment) (z1 z2 m s : ℚ)
    (hm : a.mu = some m) (hs : a.sigma = some s)
    (hc : a.clobbered = false) (hb : a.before_clobber = none) :
    ∃ a2,
      (Assignment.apply_clobber z1 a).bind (Assignment.apply_clobber z2) = .ok a2
      ∧ a2.zscore = z2 ∧ a2.score = z2 * s + m
      ∧ a2.revert_clobber = .ok a
      ∧ a2.revert_clobber.bind Assignment.revert_clobber = .ok a := by
  obtain ⟨i, n, u, cu, mo, so, cl, bc, sc, zs, w⟩ := a
  simp only at hm hs hc hb
  subst hm
  subst hs
  subst hc
  subst hb
  refine ⟨{ id := i, name := n, upper := u, curved := cu, mu := some m,
            sigma := some s, clobbered := true,
            before_clobber := some (sc, zs), score := z2 * s + m,
            zscore := z2, weight := w }, ?_, rfl, rfl, ?_, ?_⟩ <;>
    simp [Assignment.apply_clobber, Assignment.revert_clobber, bind, Except.bind]

/-- Witness for C6 at the example curved assignment with z1 = 2, z2 = 1. -/
theorem C6_clobber_overwrite_witness :
    ∃ a2,
      (Assignment.apply_clobber 2 assignment_ex).bind (Assignment.apply_clobber 1)
        = .ok a2
      ∧ a2.zscore = 1 ∧ a2.score = 1 * 10 + 50
      ∧ a2.revert_clobber = .ok assignment_ex
      ∧ a2.revert_clobber.bind Assignment.revert_clobber = .ok assignment_ex :=
  C6_clobber_overwrite assignment_ex 2 1 50 10 rfl rfl rfl rfl

/-- C5: whenever a Course's component weights sum to more than 1.0,
get_summary fails with the weight-overflow ValueError (deterministically,
whatever component pushed the total over), while none of the four
add-component operations ever fails on account of the running total of
sibling weights: each one's success is the same on every course state. -/
theorem C5_weight_overflow_summary_only :
    (∀ (sqrt : ℚ → ℚ) (ppf : ℚ → ℚ → ℚ → ℚ) (c : Course),
        1 < (c.components.map (fun p => p.2.weight)).sum →
        Course.get_summary sqrt ppf c
          = .error (.valueError "Total weight exceeds one."))
    ∧ (∀ (c₁ c₂ : Course) (w s : ℚ) (nm : Option String) (u : ℚ)
        (mu sg : Option ℚ) (id : String),
        (c₁.add_curved_single w s nm u mu sg id).isOk
          = (c₂.add_curved_single w s nm u mu sg id).isOk)
    ∧ (∀ (c₁ c₂ : Course) (w s : ℚ) (nm : Option String) (u : ℚ) (id : String),
        (c₁.add_uncurved_single w s nm u id).isOk
          = (c₂.add_uncurved_single w s nm u id).isOk)
    ∧ (∀ (c₁ c₂ : Course) (w : ℚ) (nm : Option String) (corr : Option ℚ)
        (nd : Int) (id : String),
        (c₁.add_curved_group w nm corr nd id).isOk
          = (c₂.add_curved_group w nm corr nd id).isOk)
    ∧ (∀ (c₁ c₂ : Course) (w : ℚ) (nm : Option String) (corr : Option ℚ)
        (nd : Int) (id : String),
        (c₁.add_uncurved_group w nm corr nd id).isOk
          = (c₂.add_uncurved_group w nm corr nd id).isOk) := by
  refine ⟨?_, ?_, ?_, ?_, ?_⟩
  · intro sqrt ppf c hsum
    have hne : c.components ≠ [] := by
      intro h
      rw [h] at hsum
      norm_num at hsum
    have hlen : ¬ c.components.length = 0 := by
      simpa [List.length_eq_zero] using hne
    have hcl := classify_overflow c.components 0 [] [] hne (by linarith)
    simp [Course.get_summary, hlen, hcl, bind, Except.bind]
  · intro c₁ c₂ w s nm u mu sg id
    rw [add_curved_single_isOk, add_curved_single_isOk]
  · intro c₁ c₂ w s nm u id
    rw [add_uncurved_single_isOk, add_uncurved_single_isOk]
  · intro c₁ c₂ w nm corr nd id
    rw [add_curved_group_isOk, add_curved_group_isOk]
  · intro c₁ c₂ w nm corr nd id
    rw [add_uncurved_group_isOk, add_uncurved_group_isOk]

/-- Witness for C5 at the concrete course whose two components weigh 0.7
and 0.6. -/
theorem C5_weight_overflow_summary_only_witness :
    Course.get_summary (fun x => x) (fun _m _s p => p) course_overflow_val
      = .error (.valueError "Total weight exceeds one.") :=
  C5_weight_overflow_summary_only.1 (fun x => x) (fun _m _s p => p)
    course_overflow_val
    (by norm_num [course_overflow_val, single_info])

/-- C8 counterexample: an uncurved assignment with upper = -5 is constructed
without any error, and add_curved_group accepts a correlation of 2 (outside
[0, 1]) without any error, so neither an invalid upper nor an invalid corr
argument of a group factory method is surfaced to the caller. -/
theorem C8_validation_counterexample :
    (Assignment.make 50 none (-5) none none false "a").isOk = true
    ∧ ((Course.make (6/10) none "c").bind
        (fun c => Course.add_curved_group c (1/2) none (some 2) 0 "g")).isOk
        = true := by
  constructor
  · rw [make_isOk]
    rfl
  · rw [course_make_ok (6/10) "c" (by norm_num), ok_bind,
        add_curved_group_isOk]
    norm_num

/-- C8 amended: weight outside (0, 1] and a curved assignment missing mu or
sigma fail immediately at the mutating call, and corr outside [0, 1] fails
immediately at Course construction; but the corr argument of the group
factory methods is never validated (any corr is accepted when the weight is
valid), and upper is never validated (any upper is accepted by uncurved
construction). -/
theorem C8_validation_amended :
    (∀ (c : Course) (w s : ℚ) (nm : Option String) (u : ℚ) (mu sg : Option ℚ)
        (id : String), w > 1 ∨ w ≤ 0 →
        Course.add_curved_single c w s nm u mu sg id
          = .error (.valueError s!"Invalid weight: {w}."))
    ∧ (∀ (c : Course) (w : ℚ) (nm : Option String) (corr : Option ℚ)
        (nd : Int) (id : String), w > 1 ∨ w ≤ 0 →
        Course.add_curved_group c w nm corr nd id
          = .error (.valueError s!"Invalid weight: {w}."))
    ∧ (∀ (s : ℚ) (nm : Option String) (u : ℚ) (mu sg : Option ℚ)
        (id : String), mu = none ∨ sg = none →
        Assignment.make s nm u mu sg true id
          = .error (.valueError "Curved assignment must have mean and standard deviation."))
    ∧ (∀ (corr : ℚ) (nm : Option String) (id : String), corr < 0 ∨ corr > 1 →
        Course.make corr nm id
          = .error (.valueError s!"Invalid correlation coefficient: {corr}."))
    ∧ (∀ (c : Course) (w : ℚ) (nm : Option String) (corr : Option ℚ)
        (nd : Int) (id : String), ¬(w > 1 ∨ w ≤ 0) →
        (Course.add_curved_group c w nm corr nd id).isOk = true)
    ∧ (∀ (s : ℚ) (nm : Option String) (u : ℚ) (id : String),
        (Assignment.make s nm u none none false id).isOk = true) := by
  refine ⟨?_, ?_, ?_, ?_, ?_, ?_⟩
  · intro c w s nm u mu sg id hw
    simp [Course.add_curved_single, hw]
  · intro c w nm corr nd id hw
    simp [Course.add_curved_group, AssignmentGroup.make_curved, hw,
          bind, Except.bind]
  · intro s nm u mu sg id h
    rcases h with h | h <;> simp [Assignment.make, h]
  · intro corr nm id h
    simp [Course.make, h]
  · intro c w nm corr nd id hw
    rw [add_curved_group_isOk]
    simp [hw]
  · intro s nm u id
    rw [make_isOk]
    rfl

/-- Witness for the amended C8: weight 1.5 is rejected by both factory
shapes, missing sigma is rejected, corr 1.5 is rejected by Course
construction, while corr 2 with weight 0.5 is accepted by add_curved_group
and upper -5 is accepted by uncurved construction. -/
theorem C8_validation_amended_witness :
    Course.add_curved_single course_ab_val (3/2) 50 none 100 (some 50) (some 10) "n"
        = .error (.valueError s!"Invalid weight: {(3/2 : ℚ)}.")
    ∧ Course.add_curved_group course_ab_val (3/2) none none 0 "n"
        = .error (.valueError s!"Invalid weight: {(3/2 : ℚ)}.")
    ∧ Assignment.make 50 none 100 (some 50) none true "n"
        = .error (.valueError "Curved assignment must have mean and standard deviation.")
    ∧ Course.make (3/2) none "n"
        = .error (.valueError s!"Invalid correlation coefficient: {(3/2 : ℚ)}.")
    ∧ (Course.add_curved_group course_ab_val (1/2) none (some 2) 0 "n").isOk = true
    ∧ (Assignment.make 50 none (-5) none none false "n").isOk = true :=
  ⟨C8_validation_amended.1 course_ab_val (3/2) 50 none 100 (some 50) (some 10) "n"
      (by norm_num),
   C8_validation_amended.2.1 course_ab_val (3/2) none none 0 "n" (by norm_num),
   C8_validation_amended.2.2.1 50 none 100 (some 50) none "n" (Or.inr rfl),
   C8_validation_amended.2.2.2.1 (3/2) none "n" (by norm_num),
   C8_validation_amended.2.2.2.2.1 course_ab_val (1/2) none (some 2) 0 "n"
      (by norm_num),
   C8_validation_amended.2.2.2.2.2 50 none (-5) "n"⟩

/-- The selection loop on the single remaining target B (z-score -1, below
the source z-score 2) at capacity 1 records exactly B. -/
theorem clobber_select_ab : clobber_select 2 1 [("B", -1)] = ["B"] := by
  rw [clobber_select]
  norm_num [List.all_cons, decide_eq_true_eq, py_argmin]
  rw [clobber_select]
  norm_num

set_option maxHeartbeats 1600000 in
/-- Applying the clobber of A onto B in the concrete two-component course
clobbers B with z-score 2 and records it. -/
theorem course_ab_clobber_eval :
    course_ab_val.apply_clobber "A" ["B"] (-1) = (course_ab_clobbered_val, none) := by
  have hz : ((70 : ℚ) - 50) / 10 = 2 := by norm_num
  have hz2 : ((40 : ℚ) - 50) / 10 = -1 := by norm_num
  norm_num [Course.apply_clobber, course_ab_val, course_ab_clobbered_val,
    curved_comp, single_info, fresh_curved, dict_get, dict_set, targets_check,
    fetch_zscores, CompObj.get_zscore, hz, hz2, clobber_select_ab,
    apply_clobber_targets, Assignment.apply_clobber, Assignment.revert_clobber,
    bind, Except.bind]
  simp
  norm_num [Course.apply_clobber, course_ab_val, course_ab_clobbered_val,
    curved_comp, single_info, fresh_curved, dict_get, dict_set, targets_check,
    fetch_zscores, CompObj.get_zscore, hz, hz2, clobber_select_ab,
    apply_clobber_targets, Assignment.apply_clobber, Assignment.revert_clobber,
    bind, Except.bind]
  simp +decide [dict_get, dict_set]
  norm_num

set_option maxHeartbeats 1600000 in
/-- Reverting the concrete clobbered course restores the original. -/
theorem course_ab_revert_eval :
    course_ab_clobbered_val.revert_clobber = .ok course_ab_val := by
  norm_num [Course.revert_clobber, course_ab_clobbered_val, course_ab_val,
    revert_targets, dict_get, dict_set, curved_comp, single_info, fresh_curved,
    Assignment.revert_clobber, bind, Except.bind]
  try simp
  try norm_num [dict_get, dict_set]

/-- C3 counterexample: with a clobber of A onto B active, a failing
apply_clobber call (source in targets) still changes the observable state —
the active clobber has been auto-reverted before validation — so the call is
not atomic on error as the claim states. -/
theorem C3_clobber_atomicity_counterexample :
    course_ab_ex = .ok course_ab_val
    ∧ course_ab_val.apply_clobber "A" ["B"] (-1) = (course_ab_clobbered_val, none)
    ∧ course_ab_clobbered_val.apply_clobber "A" ["A"] (-1)
        = (course_ab_val, some (.valueError "Source assignment cannot be in targets."))
    ∧ course_ab_val ≠ course_ab_clobbered_val := by
  refine ⟨course_ab_eval, course_ab_clobber_eval, ?_, ?_⟩
  · have hci : course_ab_clobbered_val.clobber_info.isSome = true := rfl
    simp [Course.apply_clobber, hci, course_ab_revert_eval]
  · intro h
    have := congrArg Course.clobber_info h
    simp [course_ab_val, course_ab_clobbered_val] at this

/-- C3 amended: a failing precondition check of Course.apply_clobber raises
the corresponding distinct error and leaves the state exactly as it was
after the automatic revert of any previously active clobber; when no clobber
was active, the state is exactly the pre-call state. -/
theorem C3_clobber_error_state_amended (c : Course) (source : String)
    (targets : List String) (capacity : Int) (c1 : Course)
    (hr : (if c.clobber_info.isSome then c.revert_clobber else Except.ok c)
            = .ok c1) :
    (c.clobber_info = none → c1 = c)
    ∧ (source ∈ targets →
        c.apply_clobber source targets capacity
          = (c1, some (.valueError "Source assignment cannot be in targets.")))
    ∧ (source ∉ targets → dict_get c1.components source = none →
        c.apply_clobber source targets capacity
          = (c1, some (.valueError "Source assignment not found.")))
    ∧ (∀ sinfo, source ∉ targets →
        dict_get c1.components source = some sinfo → sinfo.curved = false →
        c.apply_clobber source targets capacity
          = (c1, some (.valueError "Source assignment is not curved.")))
    ∧ (∀ sinfo, source ∉ targets →
        dict_get c1.components source = some sinfo → sinfo.curved = true →
        sinfo.grouped = true →
        c.apply_clobber source targets capacity
          = (c1, some (.valueError "Source assignment must be single not grouped.")))
    ∧ (∀ sinfo e, source ∉ targets →
        dict_get c1.components source = some sinfo → sinfo.curved = true →
        sinfo.grouped = false → targets_check c1.components targets 0 = some e →
        c.apply_clobber source targets capacity = (c1, some e)) := by
  refine ⟨?_, ?_, ?_, ?_, ?_, ?_⟩
  · intro hnone
    rw [hnone] at hr
    simpa using hr.symm
  · intro hst
    simp [Course.apply_clobber, hr, hst]
  · intro hst hget
    simp [Course.apply_clobber, hr, hst, hget]
  · intro sinfo hst hget hcu
    simp [Course.apply_clobber, hr, hst, hget, hcu]
  · intro sinfo hst hget hcu hgr
    simp [Course.apply_clobber, hr, hst, hget, hcu, hgr]
  · intro sinfo e hst hget hcu hgr htc
    simp [Course.apply_clobber, hr, hst, hget, hcu, hgr, htc]

/-- Witness for the amended C3: on the concrete un-clobbered course, a
source-in-targets call errors and leaves the state exactly unchanged. -/
theorem C3_clobber_error_state_amended_witness :
    course_ab_val.apply_clobber "A" ["A"] (-1)
      = (course_ab_val, some (.valueError "Source assignment cannot be in targets.")) :=
  (C3_clobber_error_state_amended course_ab_val "A" ["A"] (-1) course_ab_val
      (by simp [course_ab_val])).2.1 (by simp)

/-!
Lemmas relating the source's argmin selection loop to the specification's
first-minimum selection, and list facts supporting the clobber theorem.
-/

theorem foldl_min_cons (rest : List ℚ) :
    ∀ x y : ℚ, List.foldl min (min x y) rest = min x (List.foldl min y rest) := by
  induction rest with
  | nil => intro x y; rfl
  | cons z rest ih =>
      intro x y
      simp only [List.foldl_cons]
      rw [min_assoc, ih]

theorem py_argmin_getD :
    ∀ (l : List ℚ) (m : ℚ), l.min? = some m → l.getD (py_argmin l) 0 = m := by
  intro l
  match l with
  | [] => intro m hm; simp [List.min?_nil] at hm
  | [x] =>
      intro m hm
      simp [List.min?_cons'] at hm
      simp [py_argmin, hm]
  | x :: y :: rest =>
      intro m hm
      have hm' : (y :: rest).min? = some (rest.foldl min y) := List.min?_cons'
      have ih := py_argmin_getD (y :: rest) (rest.foldl min y) hm'
      have hmv : m = min x (rest.foldl min y) := by
        have h0 : (x :: y :: rest).min? = some ((y :: rest).foldl min x) :=
          List.min?_cons'
        rw [hm] at h0
        have h2 : m = (y :: rest).foldl min x := by
          exact (Option.some.injEq _ _).mp h0
        rw [h2]
        simpa [List.foldl_cons] using foldl_min_cons rest x y
      simp only [py_argmin]
      split
      · rename_i hlt
        rw [ih] at hlt
        simp only [List.getD_cons_succ]
        rw [ih, hmv, min_eq_right hlt.le]
      · rename_i hge
        rw [ih] at hge
        simp only [List.getD_cons_zero]
        rw [hmv, min_eq_left (not_lt.mp hge)]

theorem py_argmin_findIdx :
    ∀ (l : List ℚ) (m : ℚ), l.min? = some m →
      py_argmin l = l.findIdx (fun x => x = m) := by
  intro l
  match l with
  | [] => intro m hm; simp [List.min?_nil] at hm
  | [x] =>
      intro m hm
      simp [List.min?_cons'] at hm
      simp [py_argmin, List.findIdx_cons, hm]
  | x :: y :: rest =>
      intro m hm
      have hm' : (y :: rest).min? = some (rest.foldl min y) := List.min?_cons'
      have ih := py_argmin_findIdx (y :: rest) (rest.foldl min y) hm'
      have hgd := py_argmin_getD (y :: rest) (rest.foldl min y) hm'
      have hmv : m = min x (rest.foldl min y) := by
        have h0 : (x :: y :: rest).min? = some ((y :: rest).foldl min x) :=
          List.min?_cons'
        rw [hm] at h0
        have h2 : m = (y :: rest).foldl min x := by
          exact (Option.some.injEq _ _).mp h0
        rw [h2]
        simpa [List.foldl_cons] using foldl_min_cons rest x y
      simp only [py_argmin]
      split
      · rename_i hlt
        rw [hgd] at hlt
        have hmm : m = List.foldl min y rest := by
          rw [hmv, min_eq_right hlt.le]
        have hxm : ¬(x = List.foldl min y rest) := by
          intro h
          rw [h] at hlt
          exact lt_irrefl _ hlt
        rw [List.findIdx_cons]
        simp [hmm, hxm, ih]
      · rename_i hge
        rw [hgd] at hge
        have hxm : x = m := by rw [hmv, min_eq_left (not_lt.mp hge)]
        rw [List.findIdx_cons]
        simp [hxm]

theorem findIdx_map_eq {α β : Type} (f : α → β) (p : β → Bool) :
    ∀ l : List α, (l.map f).findIdx p = l.findIdx (fun a => p (f a)) := by
  intro l
  induction l with
  | nil => rfl
  | cons a t ih =>
      simp only [List.map_cons, List.findIdx_cons]
      cases p (f a) <;> simp [ih]

theorem map_eraseIdx_eq {α β : Type} (f : α → β) :
    ∀ (l : List α) (i : Nat), (l.eraseIdx i).map f = (l.map f).eraseIdx i := by
  intro l
  induction l with
  | nil => intro i; simp
  | cons a t ih =>
      intro i
      cases i with
      | zero => simp
      | succ j => simp [ih]

theorem nodup_getElem_not_mem_eraseIdx {α : Type} :
    ∀ (l : List α) (i : Nat) (hi : i < l.length), l.Nodup →
      l[i] ∉ l.eraseIdx i := by
  intro l
  induction l with
  | nil => intro i hi; simp at hi
  | cons x t ih =>
      intro i hi hnd
      rw [List.nodup_cons] at hnd
      cases i with
      | zero => simpa using hnd.1
      | succ j =>
          have hj : j < t.length := by simpa using hi
          simp only [List.getElem_cons_succ, List.eraseIdx_cons_succ,
                     List.mem_cons, not_or]
          constructor
          · intro h
            exact hnd.1 (h ▸ List.getElem_mem hj)
          · exact ih j hj hnd.2

/-- The source's selection loop computes exactly the specification's order:
for a nonnegative capacity, popping the argmin while some z-score is below
the source's matches popping the first-encountered minimum. -/
theorem clobber_select_eq_spec (z : ℚ) :
    ∀ (n : Nat) (pool : List (String × ℚ)),
      clobber_select z (n : Int) pool = spec_clobber_order z n pool := by
  intro n
  induction n with
  | zero =>
      intro pool
      rw [clobber_select]
      simp [spec_clobber_order]
  | succ k ih =>
      intro pool
      rw [clobber_select]
      have hne0 : ¬((k + 1 : Nat) : Int) = 0 := by
        omega
      by_cases hall : pool.all (fun p => decide (z ≤ p.2)) = true
      · have hany : pool.any (fun p => decide (p.2 < z)) = false := by
          simp only [List.all_eq_true, decide_eq_true_eq] at hall
          simp only [List.any_eq_false, decide_eq_true_eq]
          intro p hp
          exact not_lt.mpr (hall p hp)
        simp [hne0, hall, spec_clobber_order, hany]
      · have hallf : (pool.all fun p => decide (z ≤ p.2)) = false := by
          rw [Bool.not_eq_true] at hall
          exact hall
        have hany : pool.any (fun p => decide (p.2 < z)) = true := by
          simp only [List.all_eq_false, decide_eq_true_eq] at hallf
          simp only [List.any_eq_true, decide_eq_true_eq]
          obtain ⟨p, hp, hpz⟩ := hallf
          exact ⟨p, hp, not_le.mp hpz⟩
        obtain ⟨q, qs, hq⟩ : ∃ q qs, pool = q :: qs := by
          cases pool with
          | nil => simp at hany
          | cons q qs => exact ⟨q, qs, rfl⟩
        have hmin : (pool.map Prod.snd).min?
            = some ((qs.map Prod.snd).foldl min q.2) := by
          rw [hq]
          simp only [List.map_cons]
          exact List.min?_cons'
        rw [spec_clobber_order]
        simp only [hany, if_true, hmin]
        have hidx := py_argmin_findIdx (pool.map Prod.snd)
          ((qs.map Prod.snd).foldl min q.2) hmin
        have hfind : (pool.map Prod.snd).findIdx
              (fun x => x = (qs.map Prod.snd).foldl min q.2)
            = pool.findIdx (fun p => p.2 = (qs.map Prod.snd).foldl min q.2) := by
          exact findIdx_map_eq Prod.snd _ pool
        have hcast : ((k + 1 : Nat) : Int) - 1 = ((k : Nat) : Int) := by
          omega
        simp only [hne0, if_false, hallf, if_false, hidx, hfind, hcast, ih]
        simp

/-- C2: for a Course whose arguments pass every clobber precondition (no
active clobber, source not among the targets, source present, curved and
single, every target present, curved and single), Course.apply_clobber
succeeds and records in clobber_info exactly the ids the specification's
greedy loop selects: repeatedly, while capacity remains and some remaining
target's z-score is strictly below the source's, the remaining target with
minimum z-score (first-encountered on ties) is clobbered with the source's
z-score, removed from the pool, and the capacity decremented; capacity = -1
stands for the number of targets, and the components are updated by applying
the source's z-score to exactly those targets in that order. -/
theorem C2_clobber_algorithm (c : Course) (source : String)
    (targets : List String) (capacity : Int) (eff : Nat)
    (sinfo : ComponentInfo) (z : ℚ) (zs : List ℚ)
    (comps : List (String × ComponentInfo))
    (h0 : c.clobber_info = none)
    (h1 : source ∉ targets)
    (h2 : dict_get c.components source = some sinfo)
    (h3 : sinfo.curved = true)
    (h4 : sinfo.grouped = false)
    (h5 : targets_check c.components targets 0 = none)
    (h6 : sinfo.obj.get_zscore = .ok z)
    (h7 : fetch_zscores c.components targets = .ok zs)
    (heff : (capacity = -1 ∧ eff = targets.length) ∨ capacity = (eff : Int))
    (h8 : apply_clobber_targets z c.components
            (spec_clobber_order z eff (targets.zip zs)) = .ok comps) :
    c.apply_clobber source targets capacity =
      ({ c with components := comps,
                clobber_info :=
                  some ⟨source, spec_clobber_order z eff (targets.zip zs)⟩ },
       none) := by
  have hrev : (if c.clobber_info.isSome then c.revert_clobber else Except.ok c)
      = Except.ok c := by
    rw [h0]
    rfl
  have heffcast : (if capacity = -1 then (targets.length : Int) else capacity)
      = (eff : Int) := by
    rcases heff with ⟨hc, he⟩ | hc
    · rw [hc, he]
      simp
    · have hne : ¬(((eff : Nat) : Int) = -1) := by omega
      rw [hc]
      simp [hne]
  simp only [Course.apply_clobber, hrev, h1, h2, h3, h4, h5, h6, h7, heffcast,
             clobber_select_eq_spec, h8, Bool.not_eq_true, not_false_eq_true,
             if_false, if_true]
  simp [h1]

/-- Witness for C2, the spec's concrete scenario 5: source z-score 2,
targets with z-scores -1 and 0.5, capacity 1 — only the -1 target is
clobbered (score recomputed to 2 * 10 + 50 = 70, original snapshotted) and
recorded in clobber_info. -/
theorem C2_clobber_algorithm_witness :
    course_clobber_val.apply_clobber "s" ["t1", "t2"] 1 =
      ({ course_clobber_val with
          components :=
            [("s", curved_comp 70 "s" "s"),
             ("t1", { curved := true, weight := 3/10, grouped := false,
                      obj := CompObj.single
                        { id := "t1", name := some "t1", upper := 100,
                          curved := true, mu := some 50, sigma := some 10,
                          clobbered := true, before_clobber := some (40, -1),
                          score := 70, zscore := 2, weight := some (3/10) } }),
             ("t2", curved_comp 55 "t2" "t2")],
          clobber_info := some { source := "s", targets := ["t1"] } },
       none) := by
  have hcs : clobber_select 2 ((1 : Nat) : Int) [("t1", (-1 : ℚ)), ("t2", 1/2)]
      = ["t1"] := by
    rw [clobber_select]
    norm_num [List.all_cons, decide_eq_true_eq, py_argmin]
    rw [clobber_select]
    norm_num
  have hspec : spec_clobber_order 2 1 [("t1", (-1 : ℚ)), ("t2", 1/2)] = ["t1"] :=
    (clobber_select_eq_spec 2 1 [("t1", (-1 : ℚ)), ("t2", 1/2)]).symm.trans hcs
  have hzip : List.zip ["t1", "t2"] [(-1 : ℚ), 1/2]
      = [("t1", (-1 : ℚ)), ("t2", 1/2)] := rfl
  have h7 : fetch_zscores course_clobber_val.components ["t1", "t2"]
      = .ok [(-1 : ℚ), 1/2] := by
    norm_num [fetch_zscores, dict_get, course_clobber_val, curved_comp,
              single_info, fresh_curved, CompObj.get_zscore, bind, Except.bind]
    simp
  have h8 : apply_clobber_targets 2 course_clobber_val.components
      (spec_clobber_order 2 1 (List.zip ["t1", "t2"] [(-1 : ℚ), 1/2]))
      = .ok [("s", curved_comp 70 "s" "s"),
             ("t1", { curved := true, weight := 3/10, grouped := false,
                      obj := CompObj.single
                        { id := "t1", name := some "t1", upper := 100,
                          curved := true, mu := some 50, sigma := some 10,
                          clobbered := true, before_clobber := some (40, -1),
                          score := 70, zscore := 2, weight := some (3/10) } }),
             ("t2", curved_comp 55 "t2" "t2")] := by
    rw [hzip, hspec]
    norm_num [apply_clobber_targets, dict_get, dict_set, course_clobber_val,
              curved_comp, single_info, fresh_curved, Assignment.apply_clobber,
              Assignment.revert_clobber, bind, Except.bind]
    simp
    norm_num
  have hmain := C2_clobber_algorithm course_clobber_val "s" ["t1", "t2"] 1 1
    (curved_comp 70 "s" "s") 2 [(-1 : ℚ), 1/2]
    [("s", curved_comp 70 "s" "s"),
     ("t1", { curved := true, weight := 3/10, grouped := false,
              obj := CompObj.single
                { id := "t1", name := some "t1", upper := 100,
                  curved := true, mu := some 50, sigma := some 10,
                  clobbered := true, before_clobber := some (40, -1),
                  score := 70, zscore := 2, weight := some (3/10) } }),
     ("t2", curved_comp 55 "t2" "t2")]
    rfl (by decide) rfl rfl rfl rfl
    (by norm_num [curved_comp, single_info, fresh_curved, CompObj.get_zscore])
    h7 (Or.inr rfl) h8
  rw [hzip, hspec] at hmain
  exact hmain

end Howamidoing
